import Mathlib

/-!
Verification development for the actproof compliance pipeline.

The Python source is shallowly embedded: pure functions become Lean
functions, pydantic models become structures, Python floats are modelled
as exact rationals, machine-independent string operations are translated
directly.  Datetime-valued fields that no embedded computation reads are
omitted from the structures; where the source consults the filesystem
(documentation-presence probes) the boolean outcome of the probe is passed
in explicitly.
-/

namespace ActProof

/-- Lowercasing, character by character (Python `str.lower()` on the
ASCII range the embedded string tables live in). -/
def pyLower (s : String) : String := String.mk (s.toList.map Char.toLower)

/-- Uppercasing, character by character (Python `str.upper()` on the
ASCII range). -/
def pyUpper (s : String) : String := String.mk (s.toList.map Char.toUpper)

/-- Replace every non-overlapping occurrence of `pat` (non-empty) in the
character list, left to right.  The fuel argument (instantiated with the
list length, which bounds the recursion depth) keeps the recursion
structural. -/
def replaceChars (pat rep : List Char) : Nat → List Char → List Char
  | 0, cs => cs
  | _ + 1, [] => []
  | fuel + 1, c :: rest =>
    if (c :: rest).take pat.length = pat ∧ pat ≠ [] then
      rep ++ replaceChars pat rep fuel ((c :: rest).drop pat.length)
    else
      c :: replaceChars pat rep fuel rest

/-- Models Python's `str.replace` (for a non-empty pattern, the only
shape the source uses). -/
def pyReplace (s pat rep : String) : String :=
  if pat = "" then s
  else String.mk (replaceChars pat.toList rep.toList s.toList.length s.toList)

/-- Occurrence scan: does `pat` occur contiguously in the character
list? -/
def containsChars (pat : List Char) : List Char → Bool
  | [] => decide (pat = [])
  | c :: rest =>
    decide ((c :: rest).take pat.length = pat) || containsChars pat rest

/-- Models Python's substring operator `pat in s`: true when `pat` occurs
contiguously in `s` (an empty pattern always occurs). -/
def strContains (s pat : String) : Bool :=
  if pat = "" then true else containsChars pat.toList s.toList

/-- Models Python truthiness of an `Optional[str]`: `None` and the empty
string are falsy. -/
def optStrTruthy : Option String → Bool
  | none => false
  | some s => s ≠ ""

/-- Boolean-valued less-or-equal on strings (code-point lexicographic),
used to model Python's `sorted` on lists of strings. -/
def strLe (a b : String) : Bool := a < b || a == b

/-- Insert a string into a (sorted) list, keeping it sorted. -/
def strInsertSorted (x : String) : List String → List String
  | [] => [x]
  | y :: ys => if strLe x y then x :: y :: ys else y :: strInsertSorted x ys

/-- Sort a list of strings by code-point order, modelling Python's
`sorted` on strings. -/
def strSort (xs : List String) : List String := xs.foldr strInsertSorted []

/-! ## SHA-256

A direct implementation of FIPS 180-4 SHA-256 over byte lists, with
32-bit words represented as `Nat` reduced modulo `2 ^ 32`. -/

/-- Reduce a natural number to a 32-bit word. -/
def w32 (x : Nat) : Nat := x % 4294967296

/-- 32-bit addition. -/
def add32 (a b : Nat) : Nat := w32 (a + b)

/-- Rotate a 32-bit word right by `n` bits. -/
def rotr32 (n x : Nat) : Nat := w32 ((x >>> n) ||| (x <<< (32 - n)))

/-- Shift a 32-bit word right by `n` bits. -/
def shr32 (n x : Nat) : Nat := x >>> n

/-- Bitwise complement of a 32-bit word. -/
def not32 (x : Nat) : Nat := 4294967295 - w32 x

/-- SHA-256 round constants (decimal renderings of the FIPS 180-4 hex
words). -/
def shaK : List Nat :=
  [1116352408, 1899447441, 3049323471, 3921009573, 961987163,
   1508970993, 2453635748, 2870763221, 3624381080, 310598401,
   607225278, 1426881987, 1925078388, 2162078206, 2614888103,
   3248222580, 3835390401, 4022224774, 264347078, 604807628,
   770255983, 1249150122, 1555081692, 1996064986, 2554220882,
   2821834349, 2952996808, 3210313671, 3336571891, 3584528711,
   113926993, 338241895, 666307205, 773529912, 1294757372,
   1396182291, 1695183700, 1986661051, 2177026350, 2456956037,
   2730485921, 2820302411, 3259730800, 3345764771, 3516065817,
   3600352804, 4094571909, 275423344, 430227734, 506948616,
   659060556, 883997877, 958139571, 1322822218, 1537002063,
   1747873779, 1955562222, 2024104815, 2227730452, 2361852424,
   2428436474, 2756734187, 3204031479, 3329325298]

/-- SHA-256 initial hash value (decimal renderings of the FIPS 180-4 hex
words). -/
def shaH0 : List Nat :=
  [1779033703, 3144134277, 1013904242, 2773480762,
   1359893119, 2600822924, 528734635, 1541459225]

/-- Big-endian byte decomposition of `n` into `w` bytes. -/
def beBytes (w n : Nat) : List Nat :=
  (List.range w).map (fun i => (n >>> (8 * (w - 1 - i))) % 256)

/-- Pad a byte message per SHA-256: append `0x80`, zeros, and the 64-bit
big-endian bit length, reaching a multiple of 64 bytes. -/
def shaPad (msg : List Nat) : List Nat :=
  let l := msg.length
  let k := (64 + 56 - (l + 1) % 64) % 64
  msg ++ [0x80] ++ List.replicate k 0 ++ beBytes 8 (8 * l)

/-- Group 4 consecutive bytes into a big-endian 32-bit word each. -/
def bytesToWords : List Nat → List Nat
  | b0 :: b1 :: b2 :: b3 :: rest =>
      (b0 * 16777216 + b1 * 65536 + b2 * 256 + b3) :: bytesToWords rest
  | _ => []

/-- Split a list into chunks of 16 elements (one SHA-256 block of words). -/
def chunk16 (ws : List Nat) : List (List Nat) :=
  if h : ws = [] then [] else ws.take 16 :: chunk16 (ws.drop 16)
termination_by ws.length
decreasing_by
  simp only [List.length_drop]
  have : ws.length ≠ 0 := fun hz => h (List.length_eq_zero.mp hz)
  omega

/-- Message-schedule extension: grow the 16 block words to 64. -/
def shaSchedule (block : List Nat) : List Nat := Id.run do
  let mut w : Array Nat := block.toArray
  for t in [16:64] do
    let w15 := w.getD (t - 15) 0
    let w2 := w.getD (t - 2) 0
    let s0 := (rotr32 7 w15) ^^^ (rotr32 18 w15) ^^^ (shr32 3 w15)
    let s1 := (rotr32 17 w2) ^^^ (rotr32 19 w2) ^^^ (shr32 10 w2)
    w := w.push (w32 (w.getD (t - 16) 0 + s0 + w.getD (t - 7) 0 + s1))
  return w.toList

/-- Working state of the SHA-256 compression function. -/
structure ShaState where
  a : Nat
  b : Nat
  c : Nat
  d : Nat
  e : Nat
  f : Nat
  g : Nat
  hh : Nat

/-- One round of the SHA-256 compression function; `kw` is `K[t] + W[t]`. -/
def shaRound (st : ShaState) (kw : Nat) : ShaState :=
  let s1 := (rotr32 6 st.e) ^^^ (rotr32 11 st.e) ^^^ (rotr32 25 st.e)
  let ch := (st.e &&& st.f) ^^^ ((not32 st.e) &&& st.g)
  let t1 := w32 (st.hh + s1 + ch + kw)
  let s0 := (rotr32 2 st.a) ^^^ (rotr32 13 st.a) ^^^ (rotr32 22 st.a)
  let mj := (st.a &&& st.b) ^^^ (st.a &&& st.c) ^^^ (st.b &&& st.c)
  let t2 := w32 (s0 + mj)
  { a := add32 t1 t2, b := st.a, c := st.b, d := st.c,
    e := add32 st.d t1, f := st.e, g := st.f, hh := st.g }

/-- Compress one 16-word block into the running 8-word hash value. -/
def shaCompress (hs : List Nat) (block : List Nat) : List Nat :=
  let w := shaSchedule block
  let kws := List.zipWith (fun k wt => add32 k wt) shaK w
  let init : ShaState :=
    { a := hs.getD 0 0, b := hs.getD 1 0, c := hs.getD 2 0, d := hs.getD 3 0,
      e := hs.getD 4 0, f := hs.getD 5 0, g := hs.getD 6 0, hh := hs.getD 7 0 }
  let st := kws.foldl shaRound init
  [add32 (hs.getD 0 0) st.a, add32 (hs.getD 1 0) st.b,
   add32 (hs.getD 2 0) st.c, add32 (hs.getD 3 0) st.d,
   add32 (hs.getD 4 0) st.e, add32 (hs.getD 5 0) st.f,
   add32 (hs.getD 6 0) st.g, add32 (hs.getD 7 0) st.hh]

/-- SHA-256 digest of a byte message, as eight 32-bit words. -/
def sha256Words (msg : List Nat) : List Nat :=
  ((chunk16 (bytesToWords (shaPad msg)))).foldl shaCompress shaH0

/-- Lowercase hexadecimal digit for a value below 16. -/
def hexDigit (n : Nat) : Char :=
  if n < 10 then Char.ofNat (48 + n) else Char.ofNat (87 + n)

/-- Fixed-width lowercase hexadecimal rendering of a natural number. -/
def toHexFixed (width n : Nat) : String :=
  String.mk ((List.range width).map
    (fun i => hexDigit ((n >>> (4 * (width - 1 - i))) % 16)))

/-- UTF-8 bytes of a string, as naturals. -/
def strBytes (s : String) : List Nat := s.toUTF8.toList.map (·.toNat)

/-- SHA-256 hex digest of a string's UTF-8 bytes, modelling
`hashlib.sha256(x.encode()).hexdigest()`. -/
def sha256Hex (s : String) : String :=
  String.join ((sha256Words (strBytes s)).map (toHexFixed 8))

/-! ## JSON serialization

Models the calls to `json.dumps(data, sort_keys=True)` in the diff
engine.  Numbers are carried as exact rationals: in the source they are
Python floats whose `repr` is an injective deterministic function of the
value; here they are rendered by `renderNum`, also injective and
deterministic, so hash determinism and hash-input composition are
preserved exactly. -/

/-- JSON values (the shapes the diff engine serializes). -/
inductive Json where
  | jnull : Json
  | jbool : Bool → Json
  | jnum : ℚ → Json
  | jstr : String → Json
  | jarr : List Json → Json
  | jobj : List (String × Json) → Json

/-- Json escape of one character, per Python's `json.dumps` defaults
(`ensure_ascii=True`; non-ASCII rendered as `\uXXXX`, astral planes
abstracted as a single escape). -/
def jsonEscapeChar (c : Char) : String :=
  if c = '"' then "\\\""
  else if c = '\\' then "\\\\"
  else if c = '\n' then "\\n"
  else if c = '\t' then "\\t"
  else if c = '\r' then "\\r"
  else if c = Char.ofNat 8 then "\\b"
  else if c = Char.ofNat 12 then "\\f"
  else if c.toNat < 32 || 127 ≤ c.toNat then "\\u" ++ toHexFixed 4 c.toNat
  else String.mk [c]

/-- Json string literal rendering. -/
def jsonStr (s : String) : String :=
  "\"" ++ String.join (s.toList.map jsonEscapeChar) ++ "\""

/-- Decompose the denominator of a rational as `2 ^ a * 5 ^ b * rest`. -/
def stripFactor (p : Nat) (n : Nat) (fuel : Nat) : Nat × Nat :=
  match fuel with
  | 0 => (0, n)
  | fuel + 1 =>
    if n % p = 0 ∧ 2 ≤ p ∧ 0 < n then
      let r := stripFactor p (n / p) fuel
      (r.1 + 1, r.2)
    else (0, n)

/-- Decimal rendering of a natural number padded to `w` digits. -/
def padNat (w n : Nat) : String :=
  let s := toString n
  String.mk (List.replicate (w - s.length) '0') ++ s

/-- Deterministic decimal rendering of a rational number.  Terminating
decimals (denominator `2^a * 5^b`) are rendered exactly, as Python's
`repr` renders them for representable doubles (`1.0`, `0.25`, ...);
non-terminating ones are rendered as `num/den`, abstracting the shortest
round-trip decimal that CPython prints for the nearest double.  Either
way the rendering is injective and deterministic. -/
def renderNum (q : ℚ) : String :=
  let sign := if q < 0 then "-" else ""
  let n : Nat := q.num.natAbs
  let d : Nat := q.den
  let (a, d2) := stripFactor 2 d d
  let (b, d25) := stripFactor 5 d2 d2
  if d25 = 1 then
    let k := max a b
    let scaled := n * 10 ^ k / d
    let ip := scaled / 10 ^ k
    let fp := scaled % 10 ^ k
    if k = 0 then sign ++ toString ip ++ ".0"
    else sign ++ toString ip ++ "." ++ padNat k fp
  else sign ++ toString n ++ "/" ++ toString d

mutual

/-- Renders a `Json` value the way `json.dumps` does with its default
separators; object keys are rendered in the order given (the diff engine
sorts them before rendering, see `dumpsSorted`). -/
def Json.dumps : Json → String
  | .jnull => "null"
  | .jbool true => "true"
  | .jbool false => "false"
  | .jnum q => renderNum q
  | .jstr s => jsonStr s
  | .jarr xs => "[" ++ Json.dumpsList xs ++ "]"
  | .jobj kvs => "\x7b" ++ Json.dumpsObj kvs ++ "\x7d"

/-- Comma-joined rendering of array elements. -/
def Json.dumpsList : List Json → String
  | [] => ""
  | [x] => Json.dumps x
  | x :: y :: rest => Json.dumps x ++ ", " ++ Json.dumpsList (y :: rest)

/-- Comma-joined rendering of object entries. -/
def Json.dumpsObj : List (String × Json) → String
  | [] => ""
  | [(k, v)] => jsonStr k ++ ": " ++ Json.dumps v
  | (k, v) :: e :: rest =>
      jsonStr k ++ ": " ++ Json.dumps v ++ ", " ++ Json.dumpsObj (e :: rest)

end

/-- Insertion into an entry list sorted by key. -/
def kvInsertSorted (x : String × Json) : List (String × Json) → List (String × Json)
  | [] => [x]
  | y :: ys => if strLe x.1 y.1 then x :: y :: ys else y :: kvInsertSorted x ys

/-- Sort object entries by key. -/
def kvSort (kvs : List (String × Json)) : List (String × Json) :=
  kvs.foldr kvInsertSorted []

/-- Models `json.dumps(data, sort_keys=True)` for a flat dict (the only
shape the diff engine hashes: nested values are strings, numbers,
booleans and string arrays, which carry no keys to sort). -/
def dumpsSorted (kvs : List (String × Json)) : String :=
  Json.dumps (Json.jobj (kvSort kvs))

/-! ## Metadata values

The source passes free-form `Dict[str, Any]` metadata around.  The
operations actually performed on metadata values are: key membership,
lookup, `float(...)` conversion, list extension, and `str(...)` rendering
of the whole dict.  `MetaVal` covers the value shapes those operations
are applied to (strings, booleans, integers, floats-as-rationals, and
lists of strings). -/

inductive MetaVal where
  | mStr : String → MetaVal
  | mBool : Bool → MetaVal
  | mInt : Int → MetaVal
  | mNum : ℚ → MetaVal
  | mStrList : List String → MetaVal
deriving DecidableEq

/-- A metadata dict, with insertion-ordered entries as in Python. -/
abbrev Metadata := List (String × MetaVal)

/-- Key membership, modelling `"k" in d`. -/
def metaHasKey (md : Metadata) (k : String) : Bool := md.any (fun e => e.1 = k)

/-- Lookup, modelling `d.get(k)` / `d[k]`. -/
def metaGet (md : Metadata) (k : String) : Option MetaVal :=
  (md.find? (fun e => e.1 = k)).map (·.2)

/-- Python `repr` of a metadata value (string values shown in single
quotes as CPython prints them). -/
def MetaVal.pyRepr : MetaVal → String
  | .mStr s => "\x27" ++ s ++ "\x27"
  | .mBool true => "True"
  | .mBool false => "False"
  | .mInt n => toString n
  | .mNum q => renderNum q
  | .mStrList xs =>
      "[" ++ String.intercalate ", " (xs.map (fun s => "\x27" ++ s ++ "\x27")) ++ "]"

/-- Models Python's `str(...)` of a metadata dict. -/
def pyStrDict (md : Metadata) : String :=
  "\x7b" ++
    String.intercalate ", "
      (md.map (fun e => "\x27" ++ e.1 ++ "\x27: " ++ e.2.pyRepr)) ++
  "\x7d"

/-- Models Python's `float(v)` applied to a metadata value: numbers
convert, numeric decimal strings parse, everything else raises (None). -/
def MetaVal.pyFloat? : MetaVal → Option ℚ
  | .mInt n => some (n : ℚ)
  | .mNum q => some q
  | .mBool b => some (if b then 1 else 0)
  | .mStr s =>
      let t := s.trim
      let (sgn, t) :=
        if t.startsWith "-" then ((-1 : ℚ), t.drop 1)
        else if t.startsWith "+" then ((1 : ℚ), t.drop 1) else ((1 : ℚ), t)
      match t.splitOn "." with
      | [ip] =>
          if ip ≠ "" ∧ ip.all Char.isDigit then some (sgn * (ip.toNat! : ℚ))
          else none
      | [ip, fp] =>
          if (ip ≠ "" ∨ fp ≠ "") ∧ ip.all Char.isDigit ∧ fp.all Char.isDigit then
            some (sgn * ((ip.toNat! : ℚ) + (fp.toNat! : ℚ) / (10 ^ fp.length)))
          else none
      | _ => none
  | .mStrList _ => none

/-! ## Data model (`actproof/models/ai_bom.py`)

Pydantic models become structures.  Datetime fields (`created`,
`scan_timestamp`, `identified_at`, ...) that no embedded computation
reads are omitted; `detection_locations` lists, which the compliance
engine never reads, are likewise omitted. -/

inductive ModelType where
  | llm | vision | audio | embedding | fineTuned | custom
deriving DecidableEq

/-- The `.value` string of a `ModelType`. -/
def ModelType.value : ModelType → String
  | .llm => "llm"
  | .vision => "vision"
  | .audio => "audio"
  | .embedding => "embedding"
  | .fineTuned => "fine_tuned"
  | .custom => "custom"

inductive DatasetType where
  | training | validation | test | production
deriving DecidableEq

inductive LicenseType where
  | apache20 | mit | gpl30 | proprietary | unknown
deriving DecidableEq

structure ModelComponent where
  name : String
  version : Option String := none
  modelType : ModelType
  provider : Option String := none
  apiEndpoint : Option String := none
  license : Option LicenseType := none
  sourceLocation : Option String := none
  parameters : Option Int := none
  detectedIn : List String := []
  usageContext : Option String := none
deriving DecidableEq

structure DatasetComponent where
  name : String
  datasetType : DatasetType
  sourceLocation : Option String := none
  size : Option Int := none
  license : Option LicenseType := none
  gdprCompliant : Option Bool := none
  detectedIn : List String := []
  metadata : Metadata := []
deriving DecidableEq

structure DependencyComponent where
  name : String
  version : Option String := none
  packageManager : Option String := none
  license : Option LicenseType := none
  isAiRelated : Bool := false
  vulnerabilityScore : Option ℚ := none
  detectedIn : List String := []
deriving DecidableEq

structure AIBOM where
  spdxVersion : String := "SPDX-3.0"
  dataLicense : String := "CC0-1.0"
  spdxId : String
  name : String
  documentNamespace : String
  creator : String
  models : List ModelComponent := []
  datasets : List DatasetComponent := []
  dependencies : List DependencyComponent := []
  repositoryUrl : Option String := none
  repositoryCommit : Option String := none
  metadata : Metadata := []
deriving DecidableEq

/-- Construction of an `AIBOM`, modelling pydantic validation: the
`spdx_id` field validator rejects ids that do not start with `SPDXRef-`,
and the `document_namespace` validator rejects namespaces that do not
start with `https://` (validators run in field-declaration order). -/
def mkAIBOM (spdxId name documentNamespace creator : String)
    (models : List ModelComponent) (datasets : List DatasetComponent)
    (dependencies : List DependencyComponent)
    (repositoryUrl repositoryCommit : Option String) (metadata : Metadata) :
    Except String AIBOM :=
  if ¬ spdxId.startsWith "SPDXRef-" then
    .error "SPDX ID deve iniziare con \x27SPDXRef-\x27"
  else if ¬ documentNamespace.startsWith "https://" then
    .error "Namespace deve essere un URL HTTPS valido"
  else
    .ok { spdxId := spdxId, name := name,
          documentNamespace := documentNamespace, creator := creator,
          models := models, datasets := datasets,
          dependencies := dependencies, repositoryUrl := repositoryUrl,
          repositoryCommit := repositoryCommit, metadata := metadata }

/-! ## Dependency extractor (`actproof/utils/config_extractor.py`) -/

/-- The hard-coded AI/ML keyword list of `ConfigExtractor.is_ai_related`. -/
def aiKeywords : List String :=
  ["openai", "anthropic", "cohere", "replicate", "together",
   "groq", "fireworks", "mistralai", "google-generativeai",
   "vertexai", "bedrock", "ollama",
   "torch", "tensorflow", "keras", "sklearn", "scikit-learn",
   "pytorch", "jax", "flax", "onnx", "xgboost", "lightgbm",
   "catboost", "prophet", "statsmodels",
   "transformers", "huggingface", "huggingface-hub", "datasets",
   "tokenizers", "accelerate", "peft", "trl", "evaluate",
   "sentence-transformers", "sentence_transformers",
   "langchain", "llama-index", "llama_index", "llamaindex",
   "haystack", "guidance", "semantic-kernel", "autogen",
   "crewai", "dspy", "instructor", "outlines", "vllm",
   "chromadb", "pinecone", "weaviate", "qdrant", "milvus",
   "faiss", "pgvector", "lancedb",
   "mlflow", "wandb", "neptune", "clearml", "optuna",
   "ray", "dask", "polars",
   "pandas", "numpy", "scipy", "matplotlib", "seaborn",
   "plotly", "bokeh", "altair",
   "opencv", "cv2", "pillow", "torchvision", "detectron2",
   "ultralytics", "yolo",
   "whisper", "speechrecognition", "torchaudio", "librosa",
   "spacy", "nltk", "gensim", "flair", "stanza",
   "fairlearn", "aif360", "shap", "lime", "alibi",
   "interpret", "eli5"]

/-- The case/separator normalization applied by `is_ai_related` to the
package name: lowercase, then hyphens and dots become underscores. -/
def normalizeName (packageName : String) : String :=
  pyReplace (pyReplace (pyLower packageName) "-" "_") "." "_"

/-- Models `ConfigExtractor.is_ai_related`: substring match of each
keyword (hyphens normalized to underscores) against the normalized
package name. -/
def isAiRelated (packageName : String) : Bool :=
  let packageLower := normalizeName packageName
  aiKeywords.any (fun keyword => strContains packageLower (pyReplace keyword "-" "_"))

/-! ## BOM generator dependency extraction (`actproof/bom/generator.py`) -/

/-- One entry of the `config_dependencies` list that the config extractor
hands to `AIBOMGenerator._extract_dependencies`. -/
structure ConfigDep where
  name : String
  version : Option String := none
  packageManager : Option String := none
  sourceFile : String := ""
deriving DecidableEq

/-- One entry of `scan_results["ml_libraries"]`: the file and the matched
source text of an ML-library import detection. -/
structure MlLibDetection where
  file : String := ""
  matchText : String := ""
deriving DecidableEq

/-- Python `\s` for the `re` module on ASCII-relevant characters. -/
def isPySpace (c : Char) : Bool :=
  c = ' ' || c = '\t' || c = '\n' || c = '\r' || c = Char.ofNat 11 || c = Char.ofNat 12

/-- Python `[a-zA-Z0-9_]`. -/
def isWordChar (c : Char) : Bool := c.isAlphanum || c = '_'

/-- Attempt to match `import\s+([a-zA-Z0-9_]+)` at the head of the
character list, returning the capture. -/
def matchImportHere (cs : List Char) : Option String :=
  if cs.take 6 = "import".toList then
    let rest := cs.drop 6
    let ws := rest.takeWhile isPySpace
    if ws = [] then none
    else
      let cap := (rest.drop ws.length).takeWhile isWordChar
      if cap = [] then none else some (String.mk cap)
  else none

/-- Models `re.search(r"import\s+([a-zA-Z0-9_]+)", text)`: the leftmost
match wins. -/
def searchImport : List Char → Option String
  | [] => none
  | c :: rest =>
    match matchImportHere (c :: rest) with
    | some cap => some cap
    | none => searchImport rest

/-- First phase of `_extract_dependencies`: fold over the config-sourced
dependencies, skipping names already seen (`seen_deps`) and empty names. -/
def depsFromConfig : List ConfigDep → List String →
    List DependencyComponent × List String
  | [], seen => ([], seen)
  | dep :: rest, seen =>
    if dep.name ≠ "" ∧ dep.name ∉ seen then
      let comp : DependencyComponent :=
        { name := dep.name, version := dep.version,
          packageManager := dep.packageManager,
          isAiRelated := isAiRelated dep.name,
          detectedIn := [dep.sourceFile] }
      let r := depsFromConfig rest (dep.name :: seen)
      (comp :: r.1, r.2)
    else depsFromConfig rest seen

/-- Second phase of `_extract_dependencies`: fold over ML-library import
detections, extracting the library name with the `import` regex,
lowercasing it, and adding it only when unseen. -/
def depsFromMlLibraries : List MlLibDetection → List String →
    List DependencyComponent × List String
  | [], seen => ([], seen)
  | det :: rest, seen =>
    match searchImport det.matchText.toList with
    | some cap =>
      let libName := pyLower cap
      if libName ∉ seen then
        let comp : DependencyComponent :=
          { name := libName, isAiRelated := true, detectedIn := [det.file] }
        let r := depsFromMlLibraries rest (libName :: seen)
        (comp :: r.1, r.2)
      else depsFromMlLibraries rest seen
    | none => depsFromMlLibraries rest seen

/-- Models `AIBOMGenerator._extract_dependencies`: config-sourced
dependencies first, then source-import detections, deduplicated against
the same `seen_deps` set of verbatim name strings. -/
def extractDependencies (configDeps : List ConfigDep)
    (mlLibraries : List MlLibDetection) : List DependencyComponent :=
  let r1 := depsFromConfig configDeps []
  let r2 := depsFromMlLibraries mlLibraries r1.2
  r1.1 ++ r2.1

/-! ## Requirements data model (`actproof/compliance/requirements.py`)

`requirements.py` declares `AnnexIVRequirements` twice; the second
(extended) class shadows the first, so only the extended one is
embedded.  Scores are exact rationals; datetime-valued fields that no
embedded computation reads are omitted. -/

inductive RiskLevel where
  | minimal | limited | high | prohibited
deriving DecidableEq

/-- The `.value` string of a `RiskLevel`. -/
def RiskLevel.value : RiskLevel → String
  | .minimal => "minimal"
  | .limited => "limited"
  | .high => "high"
  | .prohibited => "prohibited"

inductive SystemType where
  | standalone | component | product
deriving DecidableEq

inductive RiskCategory where
  | fundamentalRights | healthSafety | biasDiscrimination | cybersecurity
  | dataPrivacy | transparency | environmental | other
deriving DecidableEq

inductive RiskSeverity where
  | critical | high | medium | low | negligible
deriving DecidableEq

/-- Severity weight used by `Risk.risk_score`. -/
def RiskSeverity.score : RiskSeverity → Nat
  | .critical => 5
  | .high => 4
  | .medium => 3
  | .low => 2
  | .negligible => 1

inductive RiskLikelihood where
  | veryHigh | high | medium | low | veryLow
deriving DecidableEq

/-- Likelihood weight used by `Risk.risk_score`. -/
def RiskLikelihood.score : RiskLikelihood → Nat
  | .veryHigh => 5
  | .high => 4
  | .medium => 3
  | .low => 2
  | .veryLow => 1

inductive RiskStatus where
  | identified | assessed | mitigated | accepted | transferred | avoided
deriving DecidableEq

structure Risk where
  riskId : String
  title : String
  description : String
  category : RiskCategory
  severity : RiskSeverity
  likelihood : RiskLikelihood
  affectedStakeholders : List String := []
  mitigationMeasures : List String := []
  residualSeverity : Option RiskSeverity := none
  residualLikelihood : Option RiskLikelihood := none
  status : RiskStatus := .identified
  owner : Option String := none
deriving DecidableEq

/-- Models `Risk.risk_score` (severity weight times likelihood weight). -/
def Risk.riskScore (r : Risk) : Nat := r.severity.score * r.likelihood.score

structure RiskManagementSystem where
  continuousProcessEstablished : Bool := false
  riskRegister : List Risk := []
  riskAssessmentMethodology : Option String := none
  residualRisksAcceptable : Bool := false
  periodicReviewFrequency : Option String := none
deriving DecidableEq

/-- Models `RiskManagementSystem.critical_risks_count`: risks of CRITICAL
severity, irrespective of their status. -/
def RiskManagementSystem.criticalRisksCount (s : RiskManagementSystem) : Nat :=
  (s.riskRegister.filter (fun r => r.severity = RiskSeverity.critical)).length

/-- Models `RiskManagementSystem.unmitigated_risks_count`: risks whose
status is still IDENTIFIED. -/
def RiskManagementSystem.unmitigatedRisksCount (s : RiskManagementSystem) : Nat :=
  (s.riskRegister.filter (fun r => r.status = RiskStatus.identified)).length

/-- Models the `RiskManagementSystem.compliant` property. -/
def RiskManagementSystem.compliant (s : RiskManagementSystem) : Bool :=
  s.continuousProcessEstablished &&
  decide (0 < s.riskRegister.length) &&
  decide (s.criticalRisksCount = 0) &&
  s.residualRisksAcceptable

structure DataQualityMetrics where
  completeness : Option ℚ := none
  consistency : Option ℚ := none
  accuracy : Option ℚ := none
  timeliness : Option ℚ := none
  overallScore : Option ℚ := none
deriving DecidableEq

structure BiasAssessment where
  demographicParity : Option ℚ := none
  equalOpportunity : Option ℚ := none
  disparateImpact : Option ℚ := none
  biasDetected : Bool := false
  biasCategories : List String := []
  mitigationMeasures : List String := []
deriving DecidableEq

structure DataLineage where
  source : Option String := none
  collectionMethod : Option String := none
  processingSteps : List String := []
  transformations : List String := []
  dataOwners : List String := []
deriving DecidableEq

structure DataGovernance where
  datasetsDocumented : Bool := false
  dataQualityMetrics : Option DataQualityMetrics := none
  biasAssessment : Option BiasAssessment := none
  dataLineage : Option DataLineage := none
  dataRelevanceDocumented : Bool := false
  representativenessAssessed : Bool := false
  gdprComplianceVerified : Bool := false
  dataGovernancePolicies : List String := []
deriving DecidableEq

/-- Models the `DataGovernance.compliant` property. -/
def DataGovernance.compliant (d : DataGovernance) : Bool :=
  d.datasetsDocumented && d.dataRelevanceDocumented &&
  d.representativenessAssessed && d.gdprComplianceVerified

structure LoggingCapability where
  automaticLoggingEnabled : Bool := false
  loggingLibraryDetected : Option String := none
  retentionPeriodMonths : Option Int := none
  auditTrailImmutable : Bool := false
  eventsLogged : List String := []
  logStorageLocation : Option String := none
  logFormat : Option String := none
  accessControlImplemented : Bool := false
deriving DecidableEq

/-- Models the `LoggingCapability.compliant` property. -/
def LoggingCapability.compliant (l : LoggingCapability) : Bool :=
  let requiredEvents := ["input_data", "output_data", "decisions", "timestamp"]
  let hasRequiredEvents := requiredEvents.all (fun e => e ∈ l.eventsLogged)
  l.automaticLoggingEnabled &&
  decide ((6 : Int) ≤ (l.retentionPeriodMonths.getD 0)) &&
  l.auditTrailImmutable && hasRequiredEvents

inductive AnnexIIICategory where
  | biometric | criticalInfrastructure | education | employment
  | essentialServices | lawEnforcement | migrationAsylum | justiceDemocracy
  | noCategory
deriving DecidableEq

/-- The `.value` string of an `AnnexIIICategory`. -/
def AnnexIIICategory.value : AnnexIIICategory → String
  | .biometric => "biometric_identification_categorization"
  | .criticalInfrastructure => "critical_infrastructure"
  | .education => "education_vocational_training"
  | .employment => "employment_workers_management"
  | .essentialServices => "essential_services"
  | .lawEnforcement => "law_enforcement"
  | .migrationAsylum => "migration_asylum_border"
  | .justiceDemocracy => "justice_democratic_processes"
  | .noCategory => "none"

structure HighRiskClassification where
  isHighRisk : Bool := false
  annexIiiCategories : List AnnexIIICategory := []
  classificationRationale : String := ""
  keywordsDetected : List String := []
  additionalRequirements : List String := []
  notifiedBodyRequired : Bool := false
deriving DecidableEq

inductive GPAIModelType where
  | llm | vision | multimodal | embedding | codeGeneration | other
deriving DecidableEq

inductive GPAIRole where
  | provider | deployer | both
deriving DecidableEq

structure GPAIModel where
  name : String
  provider : String
  modelType : GPAIModelType
  version : Option String := none
  apiEndpoint : Option String := none
  estimatedFlops : Option ℚ := none
  systemicRiskThreshold : Bool := false
deriving DecidableEq

structure GPAICompliance where
  gpaiModelsDetected : List GPAIModel := []
  userRole : GPAIRole := .deployer
  technicalDocProvided : Bool := false
  transparencyInfoUsers : Bool := false
  aiGeneratedContentDisclosed : Bool := false
  systemicRiskAssessmentRequired : Bool := false
  systemicRiskAssessmentPerformed : Bool := false
  codeOfPracticeCompliant : Bool := false
  upstreamProviderComplianceVerified : Bool := false
  intendedUseDocumented : Bool := false
  downstreamRiskAssessment : Bool := false
deriving DecidableEq

/-- Models the `GPAICompliance.compliant_as_deployer` property. -/
def GPAICompliance.compliantAsDeployer (g : GPAICompliance) : Bool :=
  g.transparencyInfoUsers && g.aiGeneratedContentDisclosed &&
  g.upstreamProviderComplianceVerified && g.intendedUseDocumented &&
  g.downstreamRiskAssessment

structure ProviderObligation where
  obligationId : String
  description : String
  articleReference : String
  compliant : Bool := false
  evidence : Option String := none
deriving DecidableEq

structure QualityManagementSystem where
  qmsEstablished : Bool := false
  complianceManagementStrategy : Bool := false
  designDevelopmentControl : Bool := false
  testingValidationProcedures : Bool := false
  postMarketMonitoringPlan : Bool := false
  changeManagementProcedure : Bool := false
  documentationMaintenance : Bool := false
  correctivePreventiveActions : Bool := false
  iso42001Compliant : Bool := false
deriving DecidableEq

/-- Models the `QualityManagementSystem.compliant` property. -/
def QualityManagementSystem.compliant (q : QualityManagementSystem) : Bool :=
  q.qmsEstablished && q.complianceManagementStrategy &&
  q.designDevelopmentControl && q.testingValidationProcedures &&
  q.postMarketMonitoringPlan && q.changeManagementProcedure

structure ProviderObligations where
  obligations : List ProviderObligation := []
  qms : Option QualityManagementSystem := none
  conformityAssessmentCompleted : Bool := false
  technicalDocumentationMaintained : Bool := false
  automaticLoggingEnabled : Bool := false
  instructionsForUseProvided : Bool := false
  correctiveActionsForNonconformance : Bool := false
deriving DecidableEq

/-- Models `ProviderObligations.compliance_percentage`. -/
def ProviderObligations.compliancePercentage (p : ProviderObligations) : ℚ :=
  if p.obligations = [] then 0
  else ((p.obligations.filter (·.compliant)).length : ℚ) / (p.obligations.length : ℚ)

structure EUDatabaseRegistration where
  registrationRequired : Bool := false
  registrationCompleted : Bool := false
  registrationId : Option String := none
  providerName : Option String := none
  providerContact : Option String := none
  systemName : Option String := none
  systemVersion : Option String := none
  intendedPurpose : Option String := none
  conformityAssessmentProcedure : Option String := none
  notifiedBody : Option String := none
deriving DecidableEq

/-- Models the `EUDatabaseRegistration.compliant` property. -/
def EUDatabaseRegistration.compliant (r : EUDatabaseRegistration) : Bool :=
  if ¬ r.registrationRequired then true
  else r.registrationCompleted && r.registrationId.isSome

inductive IncidentSeverity where
  | serious | moderate | minor
deriving DecidableEq

structure Incident where
  incidentId : String
  title : String
  description : String
  severity : IncidentSeverity
  reportedToAuthorities : Bool := false
  rootCause : Option String := none
  correctiveActions : List String := []
  preventiveActions : List String := []
  resolved : Bool := false
deriving DecidableEq

structure PostMarketMonitoring where
  monitoringPlanEstablished : Bool := false
  monitoringFrequency : Option String := none
  incidentReportingProcedure : Bool := false
  incidentContactDesignated : Bool := false
  incidentContactEmail : Option String := none
  incidents : List Incident := []
  seriousIncidentsCount : Nat := 0
  userFeedbackCollection : Bool := false
  userFeedbackAnalysis : Bool := false
  correctiveActionsProcedure : Bool := false
  preventiveActionsProcedure : Bool := false
deriving DecidableEq

/-- Models the `PostMarketMonitoring.compliant` property. -/
def PostMarketMonitoring.compliant (p : PostMarketMonitoring) : Bool :=
  p.monitoringPlanEstablished && p.incidentReportingProcedure &&
  p.incidentContactDesignated && p.correctiveActionsProcedure

structure Article8Compliance where
  allRequirementsMet : Bool := false
  conformityDeclarationSigned : Bool := false
  ceMarkingAffixed : Bool := false
  obligationsThroughoutLifecycle : Bool := false
deriving DecidableEq

/-- Models the `Article8Compliance.compliant` property. -/
def Article8Compliance.compliant (a : Article8Compliance) : Bool :=
  a.allRequirementsMet && a.conformityDeclarationSigned

structure AccuracyRequirements where
  metricsDefined : Bool := false
  performanceMetrics : List (String × ℚ) := []
  testingProceduresDocumented : Bool := false
  modelEvaluationPerformed : Bool := false
  benchmarkDatasetsUsed : List String := []
deriving DecidableEq

/-- Models the `AccuracyRequirements.compliant` property. -/
def AccuracyRequirements.compliant (a : AccuracyRequirements) : Bool :=
  a.metricsDefined && a.testingProceduresDocumented && a.modelEvaluationPerformed

structure RobustnessRequirements where
  errorHandlingImplemented : Bool := false
  fallbackMechanisms : Bool := false
  inputValidation : Bool := false
  adversarialTesting : Bool := false
  faultToleranceMeasures : List String := []
  resilienceTestingPerformed : Bool := false
  edgeCaseHandling : Bool := false
deriving DecidableEq

/-- Models the `RobustnessRequirements.compliant` property. -/
def RobustnessRequirements.compliant (r : RobustnessRequirements) : Bool :=
  r.errorHandlingImplemented && r.fallbackMechanisms && r.inputValidation &&
  decide (0 < r.faultToleranceMeasures.length)

structure CybersecurityRequirements where
  securityMeasuresImplemented : Bool := false
  dataEncryption : Bool := false
  accessControls : Bool := false
  vulnerabilityScanning : Bool := false
  penetrationTesting : Bool := false
  incidentResponsePlan : Bool := false
  securityFrameworks : List String := []
  lastSecurityAudit : Option String := none
  securityPatchesUpdated : Bool := false
  authenticationMechanisms : List String := []
deriving DecidableEq

/-- Models the `CybersecurityRequirements.compliant` property. -/
def CybersecurityRequirements.compliant (c : CybersecurityRequirements) : Bool :=
  c.securityMeasuresImplemented && c.dataEncryption && c.accessControls &&
  c.incidentResponsePlan && decide (0 < c.securityFrameworks.length)

structure TechnicalDocumentation where
  systemName : String
  systemVersion : Option String := none
  systemType : SystemType
  riskLevel : RiskLevel
  generalDescription : String
  intendedPurpose : String
  contextOfUse : String
  logicDescription : String
  trainingDataDescription : Option String := none
  dataPreprocessing : Option String := none
  technicalSpecifications : Metadata := []
  hardwareRequirements : Option String := none
  softwareDependencies : List String := []
  accuracyMetrics : List (String × ℚ) := []
  performanceMetrics : Metadata := []
  riskManagement : Metadata := []
  identifiedRisks : List String := []
  mitigationMeasures : List String := []
  humanOversight : Option Metadata := none
  oversightMeasures : List String := []
  transparencyMeasures : List String := []
  userInformation : Option String := none
  dataProtectionMeasures : List String := []
  createdBy : Option String := none
deriving DecidableEq

/-- The extended `AnnexIVRequirements` (the second declaration in
`requirements.py`, which shadows the first). -/
structure AnnexIVRequirements where
  article11Compliant : Bool := false
  article11MissingFields : List String := []
  article13Compliant : Bool := false
  article14Compliant : Bool := false
  humanOversightRequired : Bool := true
  article15Compliant : Bool := false
  accuracyMetricsProvided : Bool := false
  article8 : Option Article8Compliance := none
  article9 : Option RiskManagementSystem := none
  article9Compliant : Bool := false
  article10 : Option DataGovernance := none
  article10Compliant : Bool := false
  article12 : Option LoggingCapability := none
  article12Compliant : Bool := false
  article15Accuracy : Option AccuracyRequirements := none
  article15Robustness : Option RobustnessRequirements := none
  article15Cybersecurity : Option CybersecurityRequirements := none
  article16_17 : Option ProviderObligations := none
  article16Compliant : Bool := false
  article17Compliant : Bool := false
  annexIii : Option HighRiskClassification := none
  gpai : Option GPAICompliance := none
  gpaiCompliant : Bool := false
  article61 : Option EUDatabaseRegistration := none
  article61Compliant : Bool := false
  article72_73 : Option PostMarketMonitoring := none
  article72Compliant : Bool := false
  article73Compliant : Bool := false
  iso42001Compliant : Bool := false
  managementSystemEstablished : Bool := false
  complianceScore : ℚ := 0
  criticalGaps : List String := []
  recommendations : List String := []
deriving DecidableEq

/-- Models the `AnnexIVRequirements.total_articles_checked` property,
which is the fixed constant 13 (articles 8, 9, 10, 11, 12, 13, 14, 15,
16, 17, 61, 72, 73). -/
def AnnexIVRequirements.totalArticlesChecked (_ : AnnexIVRequirements) : Nat := 13

/-- Models the `AnnexIVRequirements.articles_compliant_count` property
(the `article_8.compliant if article_8 else False` term included). -/
def AnnexIVRequirements.articlesCompliantCount (r : AnnexIVRequirements) : Nat :=
  ((r.article8.map Article8Compliance.compliant).getD false).toNat +
  r.article9Compliant.toNat + r.article10Compliant.toNat +
  r.article11Compliant.toNat + r.article12Compliant.toNat +
  r.article13Compliant.toNat + r.article14Compliant.toNat +
  r.article15Compliant.toNat + r.article16Compliant.toNat +
  r.article17Compliant.toNat + r.article61Compliant.toNat +
  r.article72Compliant.toNat + r.article73Compliant.toNat

/-- Models `ComplianceResult`.  The free-form `compliance_report` dict
and the `evaluated_at` timestamp, which no embedded computation reads,
are omitted. -/
structure ComplianceResult where
  systemId : String
  compliant : Bool
  riskLevel : RiskLevel
  technicalDocumentation : Option TechnicalDocumentation := none
  requirementsCheck : AnnexIVRequirements
  evaluatedBy : Option String := none
  aiBomId : Option String := none
deriving DecidableEq

/-! ## Validators (`actproof/compliance/validators.py`)

Each validator class becomes a function.  The two validators that probe
the filesystem (`_check_testing_documentation` in the accuracy validator
and `_check_incident_response_docs` in the cybersecurity validator) take
the boolean outcome of the probe as an explicit argument; when the engine
is constructed without a codebase path both probes return `false`. -/

/-- Python truthiness of `Optional[int]` (`None` and `0` are falsy). -/
def optIntTruthy : Option Int → Bool
  | none => false
  | some n => n ≠ 0

/-- Models `DataGovernanceValidator._check_data_relevance`. -/
def checkDataRelevance (datasets : List DatasetComponent) : Bool :=
  if datasets = [] then false
  else datasets.any (fun ds =>
    ds.metadata ≠ [] &&
    (metaHasKey ds.metadata "purpose" || metaHasKey ds.metadata "relevance"))

/-- Models `DataGovernanceValidator._check_representativeness`. -/
def checkRepresentativeness (datasets : List DatasetComponent) : Bool :=
  if datasets = [] then false
  else datasets.any (fun ds =>
    ds.metadata ≠ [] &&
    (metaHasKey ds.metadata "representativeness" ||
     metaHasKey ds.metadata "demographics"))

/-- Models `DataGovernanceValidator._check_gdpr_compliance`. -/
def checkGdprCompliance (datasets : List DatasetComponent) : Bool :=
  if datasets = [] then true
  else datasets.all (fun ds => ds.gdprCompliant.isSome)

/-- Per-dataset completeness score of `_assess_data_quality`: 0.25 for
each of a truthy size, source location, license and metadata. -/
def datasetQualityScore (ds : DatasetComponent) : ℚ :=
  (if optIntTruthy ds.size then (1 : ℚ)/4 else 0) +
  (if optStrTruthy ds.sourceLocation then (1 : ℚ)/4 else 0) +
  (if ds.license.isSome then (1 : ℚ)/4 else 0) +
  (if ds.metadata ≠ [] then (1 : ℚ)/4 else 0)

/-- Models `DataGovernanceValidator._assess_data_quality`. -/
def assessDataQuality (datasets : List DatasetComponent) : Option DataQualityMetrics :=
  if datasets = [] then none
  else
    let totalScore := (datasets.map datasetQualityScore).sum
    let count : ℚ := datasets.length
    let overallScore := if 0 < datasets.length then totalScore / count else 0
    some { completeness := some overallScore,
           consistency := some (if 1/2 < overallScore then 4/5 else 1/2),
           accuracy := some (if 1/2 < overallScore then 4/5 else 1/2),
           timeliness := some (7/10),
           overallScore := some overallScore }

/-- The `bias_categories` contribution of one dataset in `_assess_bias`
(modelled for list-valued entries, the shape the source extends with). -/
def biasCategoriesOf (ds : DatasetComponent) : List String :=
  if ds.metadata ≠ [] then
    match metaGet ds.metadata "bias_categories" with
    | some (.mStrList l) => l
    | _ => []
  else []

/-- Models `DataGovernanceValidator._assess_bias`. -/
def assessBias (datasets : List DatasetComponent) : Option BiasAssessment :=
  if datasets = [] then none
  else
    some { biasDetected :=
             datasets.any (fun ds => ds.metadata ≠ [] && metaHasKey ds.metadata "bias"),
           biasCategories := datasets.flatMap biasCategoriesOf,
           mitigationMeasures := [] }

/-- String-valued metadata lookup (`d.get(k)` where the source stores an
`Optional[str]`). -/
def metaGetStr (md : Metadata) (k : String) : Option String :=
  match metaGet md k with
  | some (.mStr s) => some s
  | _ => none

/-- String-list-valued metadata lookup with a default
(`d.get(k, [])`). -/
def metaGetStrList (md : Metadata) (k : String) : List String :=
  match metaGet md k with
  | some (.mStrList l) => l
  | _ => []

/-- Models `DataGovernanceValidator._extract_data_lineage` (built from
the first dataset). -/
def extractDataLineage (datasets : List DatasetComponent) : Option DataLineage :=
  match datasets with
  | [] => none
  | ds :: _ =>
    some { source := ds.sourceLocation,
           collectionMethod :=
             if ds.metadata ≠ [] then metaGetStr ds.metadata "collection_method" else none,
           processingSteps :=
             if ds.metadata ≠ [] then metaGetStrList ds.metadata "processing_steps" else [],
           transformations :=
             if ds.metadata ≠ [] then metaGetStrList ds.metadata "transformations" else [],
           dataOwners :=
             if ds.metadata ≠ [] then metaGetStrList ds.metadata "data_owners" else [] }

/-- Models `DataGovernanceValidator._extract_governance_policies`. -/
def extractGovernancePolicies (bom : AIBOM) : List String :=
  if bom.metadata ≠ [] && metaHasKey bom.metadata "data_governance_policies" then
    metaGetStrList bom.metadata "data_governance_policies"
  else []

/-- Models `DataGovernanceValidator.validate`. -/
def dataGovernanceValidate (bom : AIBOM) : DataGovernance :=
  { datasetsDocumented := decide (0 < bom.datasets.length),
    dataQualityMetrics := assessDataQuality bom.datasets,
    biasAssessment := assessBias bom.datasets,
    dataLineage := extractDataLineage bom.datasets,
    dataRelevanceDocumented := checkDataRelevance bom.datasets,
    representativenessAssessed := checkRepresentativeness bom.datasets,
    gdprComplianceVerified := checkGdprCompliance bom.datasets,
    dataGovernancePolicies := extractGovernancePolicies bom }

/-- The `COMMON_RISKS` table of `RiskManagementValidator`, keyed by the
model-type value string. -/
def commonRisks : List (String × List (String × RiskCategory × RiskSeverity × RiskLikelihood)) :=
  [("llm",
    [("Bias and discrimination in generated content",
      .biasDiscrimination, .high, .medium),
     ("Generation of harmful or illegal content",
      .fundamentalRights, .critical, .medium),
     ("Privacy violation through training data leakage",
      .dataPrivacy, .high, .low),
     ("Lack of transparency in decision-making",
      .transparency, .medium, .high)]),
   ("vision",
    [("Biased face recognition across demographics",
      .biasDiscrimination, .high, .high),
     ("Privacy violation through unauthorized surveillance",
      .fundamentalRights, .critical, .medium),
     ("Inaccurate predictions leading to wrong decisions",
      .healthSafety, .high, .medium)]),
   ("recruitment",
    [("Discriminatory candidate filtering",
      .biasDiscrimination, .critical, .high),
     ("Lack of transparency in hiring decisions",
      .transparency, .high, .high),
     ("Violation of equal opportunity rights",
      .fundamentalRights, .critical, .medium)])]

/-- Models Python's `str.split()` (split on whitespace runs, dropping
empty pieces). -/
def pySplitWs (s : String) : List String :=
  (s.split isPySpace).filter (fun w => w ≠ "")

/-- Builds one auto-seeded risk of `_generate_risk_register` from a
common-risks table entry. -/
def mkCommonRisk (modelTypeValue : String) (idx : Nat)
    (entry : String × RiskCategory × RiskSeverity × RiskLikelihood) : Risk :=
  { riskId := "RISK-" ++ (pyUpper modelTypeValue) ++ "-" ++ padNat 3 (idx + 1),
    title := String.intercalate " " ((pySplitWs entry.1).take 5),
    description := entry.1,
    category := entry.2.1,
    severity := entry.2.2.1,
    likelihood := entry.2.2.2,
    affectedStakeholders := ["End users", "Data subjects"],
    mitigationMeasures := [],
    status := .identified }

/-- Models `RiskManagementValidator._get_category_specific_risks`. -/
def categorySpecificRisks : AnnexIIICategory → List Risk
  | .employment =>
    [{ riskId := "RISK-EMP-001",
       title := "Discriminatory hiring decisions",
       description := "AI system may perpetuate bias in recruitment and hiring processes",
       category := .biasDiscrimination,
       severity := .critical,
       likelihood := .high,
       affectedStakeholders := ["Job candidates", "Employees"],
       mitigationMeasures :=
         ["Implement bias detection and mitigation",
          "Regular fairness audits",
          "Human oversight of all hiring decisions"],
       status := .identified }]
  | .biometric =>
    [{ riskId := "RISK-BIO-001",
       title := "Privacy violation through biometric data",
       description := "Unauthorized collection or processing of biometric data",
       category := .fundamentalRights,
       severity := .critical,
       likelihood := .medium,
       affectedStakeholders := ["Data subjects", "Public"],
       mitigationMeasures :=
         ["Explicit consent collection",
          "Secure biometric data storage",
          "Compliance with GDPR Article 9"],
       status := .identified }]
  | _ => []

/-- Models `RiskManagementValidator._generate_risk_register`. -/
def generateRiskRegister (bom : AIBOM) (riskLevel : RiskLevel)
    (annexIiiCategory : Option AnnexIIICategory) : List Risk :=
  let modelRisks := bom.models.flatMap (fun m =>
    let mt := m.modelType.value
    match commonRisks.find? (fun e => e.1 = mt) with
    | some e => e.2.enum.map (fun ie => mkCommonRisk mt ie.1 ie.2)
    | none => [])
  let withCategory := modelRisks ++
    (match annexIiiCategory with
     | some cat => if cat ≠ .noCategory then categorySpecificRisks cat else []
     | none => [])
  if riskLevel = .high ∧ withCategory.length = 0 then
    withCategory ++
      [{ riskId := "RISK-GENERIC-001",
         title := "Insufficient risk assessment",
         description := "No specific risks identified for high-risk AI system",
         category := .other,
         severity := .high,
         likelihood := .high,
         affectedStakeholders := ["All stakeholders"],
         mitigationMeasures := ["Perform comprehensive risk assessment"],
         status := .identified }]
  else withCategory

/-- Models `RiskManagementValidator._check_continuous_process`. -/
def checkContinuousProcess (bom : AIBOM) : Bool :=
  bom.metadata ≠ [] && metaHasKey bom.metadata "risk_management_process"

/-- Models `RiskManagementValidator._check_residual_risks`: residual
risks are acceptable when no CRITICAL risk is still IDENTIFIED. -/
def checkResidualRisks (riskRegister : List Risk) : Bool :=
  (riskRegister.filter (fun r =>
    r.severity = RiskSeverity.critical ∧ r.status = RiskStatus.identified)).length = 0

/-- Models `RiskManagementValidator.validate`. -/
def riskManagementValidate (bom : AIBOM) (riskLevel : RiskLevel)
    (annexIiiCategory : Option AnnexIIICategory) : RiskManagementSystem :=
  let riskRegister := generateRiskRegister bom riskLevel annexIiiCategory
  { continuousProcessEstablished := checkContinuousProcess bom,
    riskRegister := riskRegister,
    riskAssessmentMethodology :=
      if riskRegister ≠ [] then some "AI-assisted risk identification" else none,
    residualRisksAcceptable := checkResidualRisks riskRegister,
    periodicReviewFrequency :=
      some (if riskLevel = .high then "Quarterly" else "Annually") }

/-- The `LOGGING_LIBRARIES` table of `LoggingValidator`. -/
def loggingLibraries : List (String × List String) :=
  [("python", ["logging", "structlog", "loguru", "logbook", "eliot"]),
   ("javascript", ["winston", "bunyan", "pino", "log4js", "morgan"])]

/-- Models `LoggingValidator._detect_logging_library` (exact membership
of each candidate library in the lowercased dependency names, first hit
in table order wins). -/
def detectLoggingLibrary (bom : AIBOM) : Option String :=
  let allDeps := bom.dependencies.map (fun dep => pyLower dep.name)
  (loggingLibraries.flatMap (·.2)).find? (fun lib => lib ∈ allDeps)

/-- Models `LoggingValidator._detect_retention_period` (an integer
metadata entry, the shape pydantic accepts). -/
def detectRetentionPeriod (bom : AIBOM) : Option Int :=
  if bom.metadata ≠ [] && metaHasKey bom.metadata "log_retention_months" then
    match metaGet bom.metadata "log_retention_months" with
    | some (.mInt n) => some n
    | _ => none
  else none

/-- Models `LoggingValidator._detect_logged_events`. -/
def detectLoggedEvents (bom : AIBOM) : List String :=
  if bom.dependencies ≠ [] then
    if bom.dependencies.any (fun dep =>
        pyLower dep.name ∈ ["logging", "winston", "log4js", "structlog", "loguru"]) then
      ["timestamp", "log_level", "message"]
    else []
  else []

/-- Models `LoggingValidator._check_audit_trail`. -/
def checkAuditTrail (bom : AIBOM) : Bool :=
  bom.dependencies.any (fun dep =>
    pyLower dep.name ∈ ["audit-log", "immutable-log", "blockchain-logger"])

/-- Models `LoggingValidator.validate`. -/
def loggingValidate (bom : AIBOM) : LoggingCapability :=
  let loggingLibrary := detectLoggingLibrary bom
  { automaticLoggingEnabled := loggingLibrary.isSome,
    loggingLibraryDetected := loggingLibrary,
    retentionPeriodMonths := detectRetentionPeriod bom,
    auditTrailImmutable := checkAuditTrail bom,
    eventsLogged := detectLoggedEvents bom,
    logFormat :=
      some (match loggingLibrary with
            | some lib => if lib ∈ ["winston", "pino", "structlog"] then "JSON" else "Text"
            | none => "Text"),
    accessControlImplemented := false }

/-- The `CATEGORY_KEYWORDS` table of `HighRiskClassifier`. -/
def categoryKeywords : List (AnnexIIICategory × List String) :=
  [(.biometric,
    ["biometric", "face recognition", "facial recognition", "fingerprint",
     "iris recognition", "voice recognition", "gait recognition", "emotion recognition"]),
   (.criticalInfrastructure,
    ["infrastructure", "water supply", "gas supply", "electricity", "heating",
     "critical infrastructure", "utility management", "power grid"]),
   (.education,
    ["education", "school", "university", "student", "exam", "grading",
     "educational", "learning management", "assessment", "admission"]),
   (.employment,
    ["recruitment", "hiring", "hr", "human resources", "employee", "job",
     "resume", "cv", "candidate", "interview", "performance evaluation",
     "workforce management", "talent acquisition"]),
   (.essentialServices,
    ["credit", "loan", "creditworthiness", "credit scoring", "healthcare",
     "medical", "diagnosis", "treatment", "emergency services", "benefit",
     "social security", "welfare"]),
   (.lawEnforcement,
    ["law enforcement", "police", "criminal", "crime", "investigation",
     "surveillance", "suspect", "evidence", "forensic"]),
   (.migrationAsylum,
    ["migration", "asylum", "refugee", "border control", "visa",
     "immigration", "deportation", "travel document"]),
   (.justiceDemocracy,
    ["justice", "court", "judge", "legal", "judiciary", "democratic",
     "election", "voting", "democracy", "legal decision"])]

/-- Models Python's `str.title()`. -/
def pyTitle (s : String) : String :=
  String.mk ((s.toList.foldl (fun (acc : List Char × Bool) c =>
    if c.isAlpha then
      ((if acc.2 then c.toLower else c.toUpper) :: acc.1, true)
    else (c :: acc.1, false)) ([], false)).1.reverse)

/-- The category/keyword scan of `HighRiskClassifier.classify`: each
category whose keywords occur in the combined text is collected once (in
table order), and every matching keyword is collected. -/
def classifyScan (combined : String) : List AnnexIIICategory × List String :=
  categoryKeywords.foldl (fun acc ck =>
    let matched := ck.2.filter (fun kw => strContains combined kw)
    if matched = [] then acc else (acc.1 ++ [ck.1], acc.2 ++ matched)) ([], [])

/-- Models `HighRiskClassifier._generate_rationale`. -/
def generateRationale (categories : List AnnexIIICategory)
    (keywords : List String) : String :=
  if categories = [] then
    "System does not fall under Annex III high-risk categories."
  else
    let catNames := categories.map (fun cat => pyTitle (pyReplace cat.value "_" " "))
    "System classified as HIGH-RISK under Annex III categories: " ++
      String.intercalate ", " catNames ++ ". " ++
    "Keywords detected: " ++ String.intercalate ", " (keywords.take 5) ++ ". " ++
    "This classification requires compliance with all high-risk AI system requirements."

/-- Models `HighRiskClassifier._get_additional_requirements`. -/
def getAdditionalRequirements (categories : List AnnexIIICategory) : List String :=
  (if .employment ∈ categories then
    ["Article 26: Obligations for employers deploying AI systems",
     "GDPR Article 22: Right to human review of automated decisions",
     "Transparency requirements for candidates/employees"]
   else []) ++
  (if .biometric ∈ categories then
    ["GDPR Article 9: Special category data processing",
     "Explicit consent required",
     "Enhanced security measures for biometric data"]
   else []) ++
  (if .essentialServices ∈ categories then
    ["Enhanced transparency to affected persons",
     "Right to explanation of decisions",
     "Periodic validation of accuracy"]
   else [])

/-- Models `HighRiskClassifier.classify`. -/
def highRiskClassify (bom : AIBOM) : HighRiskClassification :=
  let textToAnalyze :=
    [pyLower bom.name,
     if optStrTruthy bom.repositoryUrl then pyLower (bom.repositoryUrl.getD "") else ""] ++
    bom.models.filterMap (fun m =>
      if optStrTruthy m.usageContext then some (pyLower (m.usageContext.getD ""))
      else none) ++
    (if bom.metadata ≠ [] then [pyLower (pyStrDict bom.metadata)] else [])
  let combined := String.intercalate " " textToAnalyze
  let scan := classifyScan combined
  let detectedCategories := scan.1
  let keywordsDetected := scan.2
  { isHighRisk := decide (0 < detectedCategories.length),
    annexIiiCategories := detectedCategories,
    classificationRationale := generateRationale detectedCategories keywordsDetected,
    keywordsDetected := keywordsDetected,
    additionalRequirements := getAdditionalRequirements detectedCategories,
    notifiedBodyRequired := .biometric ∈ detectedCategories }

/-- The `GPAI_PROVIDERS` table of `GPAIValidator`, in dict insertion
order. -/
def gpaiProviders : List (String × List String) :=
  [("openai", ["gpt-3.5", "gpt-4", "gpt-4-turbo", "text-embedding", "dall-e"]),
   ("anthropic", ["claude-3", "claude-2", "claude-instant"]),
   ("google", ["gemini", "palm", "bard"]),
   ("meta", ["llama", "llama-2", "llama-3"]),
   ("mistral", ["mistral", "mixtral"]),
   ("cohere", ["command", "embed"])]

/-- The provider/pattern loop of `_detect_gpai_models`: a provider-name
match breaks out of the whole loop, while a model-name pattern match only
breaks the inner loop, so a later provider's pattern match overwrites the
detected provider. -/
def gpaiScanGo (provider? : Option String) (nameLower : String) :
    List (String × List String) → Bool → Option String → Bool × Option String
  | [], isGpai, detected => (isGpai, detected)
  | (prov, patterns) :: rest, isGpai, detected =>
    if (match provider? with
        | some p => p ≠ "" && strContains (pyLower p) prov
        | none => false) then
      (true, some prov)
    else if patterns.any (fun pat => strContains nameLower pat) then
      gpaiScanGo provider? nameLower rest true (some prov)
    else
      gpaiScanGo provider? nameLower rest isGpai detected

/-- Models `GPAIValidator._determine_gpai_type`. -/
def determineGpaiType (modelName : String) : GPAIModelType :=
  if ["gpt", "claude", "llama", "palm", "gemini", "command"].any
      (fun x => strContains modelName x) then .llm
  else if ["dall-e", "stable-diffusion", "midjourney"].any
      (fun x => strContains modelName x) then .vision
  else if ["whisper", "audio"].any (fun x => strContains modelName x) then .vision
  else if ["embed", "embedding"].any (fun x => strContains modelName x) then .embedding
  else if strContains modelName "codex" || strContains modelName "code" then
    .codeGeneration
  else .other

/-- Models `GPAIValidator._estimate_systemic_risk`. -/
def estimateSystemicRisk (modelName : String) : Bool :=
  ["gpt-4", "claude-3-opus", "gemini-ultra", "llama-3-405b"].any
    (fun m => strContains modelName m)

/-- Models Python's `a or b or c` over optional strings with a string
fallback (falsy values skipped). -/
def pyOrStr (a b : Option String) (c : String) : String :=
  if optStrTruthy a then a.getD ""
  else if optStrTruthy b then b.getD ""
  else c

/-- Models `GPAIValidator._detect_gpai_models`. -/
def detectGpaiModels (bom : AIBOM) : List GPAIModel :=
  bom.models.filterMap (fun m =>
    let modelName := pyLower m.name
    let scan := gpaiScanGo m.provider modelName gpaiProviders false none
    if scan.1 then
      some { name := m.name,
             provider := pyOrStr scan.2 m.provider "Unknown",
             modelType := determineGpaiType modelName,
             version := m.version,
             apiEndpoint := m.apiEndpoint,
             estimatedFlops := none,
             systemicRiskThreshold := estimateSystemicRisk modelName }
    else none)

/-- Models `GPAIValidator.validate` (all deployer-obligation booleans
await manual attestation and are returned false). -/
def gpaiValidate (bom : AIBOM) : GPAICompliance :=
  let gpaiModels := detectGpaiModels bom
  { gpaiModelsDetected := gpaiModels,
    userRole := if gpaiModels ≠ [] then .deployer else .provider,
    technicalDocProvided := false,
    transparencyInfoUsers := false,
    aiGeneratedContentDisclosed := false,
    systemicRiskAssessmentRequired := gpaiModels.any (·.systemicRiskThreshold),
    systemicRiskAssessmentPerformed := false,
    codeOfPracticeCompliant := false,
    upstreamProviderComplianceVerified := false,
    intendedUseDocumented := false,
    downstreamRiskAssessment := false }

/-- The `ARTICLE_16_OBLIGATIONS` checklist of
`ProviderObligationsValidator`. -/
def article16Obligations : List (String × String) :=
  [("Art. 16(a)", "Conformity assessment completed"),
   ("Art. 16(b)", "Technical documentation maintained and updated"),
   ("Art. 16(c)", "Automatic logging enabled for high-risk AI systems"),
   ("Art. 16(d)", "Instructions for use provided to deployers"),
   ("Art. 16(e)", "Corrective actions taken for non-conformance"),
   ("Art. 16(f)", "Cooperation with authorities"),
   ("Art. 16(g)", "CE marking affixed to high-risk AI system"),
   ("Art. 16(h)", "Registration in EU database (if high-risk)")]

/-- Models `ProviderObligationsValidator.validate`: every obligation is
returned non-compliant (`compliant=False # Requires manual verification`)
and `conformity_assessment_completed` is hard-coded false. -/
def providerObligationsValidate (_bom : AIBOM) (_riskLevel : RiskLevel) :
    ProviderObligations :=
  { obligations := article16Obligations.enum.map (fun ie =>
      { obligationId := "OBL-" ++ padNat 2 (ie.1 + 1),
        description := ie.2.2,
        articleReference := ie.2.1,
        compliant := false,
        evidence := none }),
    qms := some
      { qmsEstablished := false,
        complianceManagementStrategy := false,
        designDevelopmentControl := false,
        testingValidationProcedures := false,
        postMarketMonitoringPlan := false,
        changeManagementProcedure := false,
        documentationMaintenance := false,
        correctivePreventiveActions := false },
    conformityAssessmentCompleted := false,
    technicalDocumentationMaintained := false,
    automaticLoggingEnabled := false,
    instructionsForUseProvided := false,
    correctiveActionsForNonconformance := false }

/-- Models `EUDatabaseValidator.validate`. -/
def euDatabaseValidate (riskLevel : RiskLevel) (systemName : String) :
    EUDatabaseRegistration :=
  { registrationRequired := decide (riskLevel = .high),
    registrationCompleted := false,
    registrationId := none,
    providerName := none,
    providerContact := none,
    systemName := some systemName,
    systemVersion := none,
    intendedPurpose := none,
    conformityAssessmentProcedure := none,
    notifiedBody := none }

/-- Models `PostMarketMonitoringValidator.validate`. -/
def postMarketValidate (riskLevel : RiskLevel) : PostMarketMonitoring :=
  { monitoringPlanEstablished := false,
    monitoringFrequency := some (if riskLevel = .high then "Monthly" else "Quarterly"),
    incidentReportingProcedure := false,
    incidentContactDesignated := false,
    incidentContactEmail := none,
    incidents := [],
    seriousIncidentsCount := 0,
    userFeedbackCollection := false,
    userFeedbackAnalysis := false,
    correctiveActionsProcedure := false,
    preventiveActionsProcedure := false }

/-- Models `Article8Validator.validate`. -/
def article8Validate : Article8Compliance :=
  { allRequirementsMet := false,
    conformityDeclarationSigned := false,
    ceMarkingAffixed := false,
    obligationsThroughoutLifecycle := false }

/-- The `TESTING_FRAMEWORKS` table of `Article15AccuracyValidator`. -/
def accTestingFrameworks : List (String × List String) :=
  [("python", ["pytest", "unittest", "nose", "hypothesis", "sklearn.metrics",
               "tensorflow.keras.metrics"]),
   ("javascript", ["jest", "mocha", "chai", "jasmine"])]

/-- The `BENCHMARK_DATASETS` list of `Article15AccuracyValidator`. -/
def benchmarkDatasets : List String :=
  ["MNIST", "CIFAR", "ImageNet", "COCO", "GLUE", "SuperGLUE",
   "SQuAD", "CoNLL", "IMDB", "WikiText", "Common Crawl"]

/-- Models `Article15AccuracyValidator._detect_testing_frameworks`. -/
def detectTestingFrameworks (bom : AIBOM) : Bool :=
  bom.dependencies.any (fun dep =>
    let depName := pyLower dep.name
    accTestingFrameworks.any (fun lf =>
      lf.2.any (fun fw => strContains depName fw)))

/-- The metric keywords of `_extract_performance_metrics`. -/
def metricKeywords : List String :=
  ["accuracy", "precision", "recall", "f1", "auc", "roc", "mse", "mae", "rmse"]

/-- Models `Article15AccuracyValidator._extract_performance_metrics`
(metric-named metadata entries convertible with `float(...)`). -/
def extractPerformanceMetrics (bom : AIBOM) : List (String × ℚ) :=
  bom.metadata.filterMap (fun kv =>
    if metricKeywords.any (fun metric => strContains (pyLower kv.1) metric) then
      (kv.2.pyFloat?).map (fun q => (kv.1, q))
    else none)

/-- Models `Article15AccuracyValidator._detect_benchmark_datasets`
(the `list(set(...))` at the end modelled as order-insensitive
deduplication). -/
def detectBenchmarkDatasets (bom : AIBOM) : List String :=
  (bom.datasets.flatMap (fun dataset =>
    let datasetName := pyUpper dataset.name
    benchmarkDatasets.filter (fun benchmark =>
      strContains datasetName benchmark))).dedup

/-- Models `Article15AccuracyValidator.validate`; `testingDocs` is the
outcome of the `_check_testing_documentation` filesystem probe. -/
def accuracyValidate (bom : AIBOM) (testingDocs : Bool) : AccuracyRequirements :=
  let testingDetected := detectTestingFrameworks bom
  let performanceMetrics := extractPerformanceMetrics bom
  { metricsDefined := decide (0 < performanceMetrics.length) || testingDetected,
    performanceMetrics := performanceMetrics,
    testingProceduresDocumented := testingDocs,
    modelEvaluationPerformed := testingDetected && decide (0 < performanceMetrics.length),
    benchmarkDatasetsUsed := detectBenchmarkDatasets bom }

/-- The `ERROR_HANDLING_KEYWORDS` list of `Article15RobustnessValidator`. -/
def errorHandlingKeywords : List String :=
  ["try", "except", "catch", "error", "exception", "fallback", "retry"]

/-- The `FAULT_TOLERANCE_LIBS` table of `Article15RobustnessValidator`. -/
def faultToleranceLibs : List (String × List String) :=
  [("python", ["tenacity", "backoff", "retry", "circuit-breaker", "resilience4j"]),
   ("javascript", ["retry", "async-retry", "p-retry", "opossum"])]

/-- Models `Article15RobustnessValidator._detect_error_handling`. -/
def detectErrorHandling (bom : AIBOM) : Bool :=
  bom.dependencies.any (fun dep =>
    errorHandlingKeywords.any (fun keyword => strContains (pyLower dep.name) keyword))

/-- Models `Article15RobustnessValidator._detect_fault_tolerance`
(the `list(set(...))` modelled as order-insensitive deduplication). -/
def detectFaultTolerance (bom : AIBOM) : List String :=
  (bom.dependencies.flatMap (fun dep =>
    let depName := pyLower dep.name
    faultToleranceLibs.flatMap (fun ll =>
      (ll.2.filter (fun lib => strContains depName lib)).map
        (fun lib => lib ++ " (" ++ ll.1 ++ ")")))).dedup

/-- Models `Article15RobustnessValidator._detect_input_validation`. -/
def detectInputValidation (bom : AIBOM) : Bool :=
  bom.dependencies.any (fun dep =>
    ["pydantic", "marshmallow", "cerberus", "voluptuous", "joi", "ajv", "yup"].any
      (fun lib => strContains (pyLower dep.name) lib))

/-- Models `Article15RobustnessValidator._detect_adversarial_testing`. -/
def detectAdversarialTesting (bom : AIBOM) : Bool :=
  bom.dependencies.any (fun dep =>
    ["cleverhans", "foolbox", "adversarial-robustness-toolbox", "art"].any
      (fun lib => strContains (pyLower dep.name) lib))

/-- Models `Article15RobustnessValidator._detect_resilience_testing`. -/
def detectResilienceTesting (bom : AIBOM) : Bool :=
  bom.dependencies.any (fun dep =>
    ["chaos", "toxiproxy", "gremlin", "simian-army", "pytest-stress"].any
      (fun lib => strContains (pyLower dep.name) lib))

/-- Models `Article15RobustnessValidator.validate`. -/
def robustnessValidate (bom : AIBOM) : RobustnessRequirements :=
  let faultToleranceMeasures := detectFaultTolerance bom
  let adversarialTesting := detectAdversarialTesting bom
  let resilienceTesting := detectResilienceTesting bom
  { errorHandlingImplemented := detectErrorHandling bom,
    fallbackMechanisms := decide (0 < faultToleranceMeasures.length),
    inputValidation := detectInputValidation bom,
    adversarialTesting := adversarialTesting,
    faultToleranceMeasures := faultToleranceMeasures,
    resilienceTestingPerformed := resilienceTesting,
    edgeCaseHandling := resilienceTesting || adversarialTesting }

/-- The `SECURITY_FRAMEWORKS` list of `Article15CybersecurityValidator`. -/
def securityFrameworksList : List String :=
  ["ISO 27001", "NIST CSF", "SOC2", "PCI-DSS", "GDPR", "HIPAA"]

/-- The `ENCRYPTION_LIBS` table. -/
def encryptionLibs : List (String × List String) :=
  [("python", ["cryptography", "pycryptodome", "nacl", "hashlib"]),
   ("javascript", ["crypto", "bcrypt", "crypto-js", "node-forge"])]

/-- The `AUTH_LIBS` table. -/
def authLibs : List (String × List String) :=
  [("python", ["flask-login", "django-auth", "authlib", "oauthlib", "pyjwt"]),
   ("javascript", ["passport", "jsonwebtoken", "oauth", "auth0"])]

/-- The `SECURITY_SCANNING_LIBS` table. -/
def securityScanningLibs : List (String × List String) :=
  [("python", ["bandit", "safety", "snyk", "semgrep"]),
   ("javascript", ["eslint-plugin-security", "npm-audit", "snyk"])]

/-- Substring scan of the dependency names against a language-keyed
library table, the detection loop shared by the cybersecurity checks. -/
def depScanTable (bom : AIBOM) (table : List (String × List String)) : Bool :=
  bom.dependencies.any (fun dep =>
    let depName := pyLower dep.name
    table.any (fun ll => ll.2.any (fun lib => strContains depName lib)))

/-- Models `Article15CybersecurityValidator._detect_pentesting_tools`. -/
def detectPentestingTools (bom : AIBOM) : Bool :=
  bom.dependencies.any (fun dep =>
    ["metasploit", "burp", "zap", "nmap", "nessus", "w3af"].any
      (fun lib => strContains (pyLower dep.name) lib))

/-- Models `_detect_security_frameworks`: frameworks named (spaces
removed, uppercased) inside the `str(...)` of the BOM metadata. -/
def detectSecurityFrameworks (bom : AIBOM) : List String :=
  if bom.metadata ≠ [] then
    let metadataStr := pyReplace (pyUpper (pyStrDict bom.metadata)) " " ""
    securityFrameworksList.filter (fun framework =>
      strContains metadataStr (pyUpper (pyReplace framework " " "")))
  else []

/-- Shallow shape check for `datetime.fromisoformat` acceptance: a
`YYYY-MM-DD`-prefixed string. -/
def isoDateLike (s : String) : Bool :=
  let cs := s.toList
  decide (10 ≤ cs.length) &&
  (cs.take 4).all Char.isDigit &&
  decide (cs.getD 4 ' ' = '-') &&
  ((cs.drop 5).take 2).all Char.isDigit &&
  decide (cs.getD 7 ' ' = '-') &&
  ((cs.drop 8).take 2).all Char.isDigit

/-- Python truthiness of a metadata value. -/
def MetaVal.truthy : MetaVal → Bool
  | .mStr s => s ≠ ""
  | .mBool b => b
  | .mInt n => n ≠ 0
  | .mNum q => q ≠ 0
  | .mStrList l => l ≠ []

/-- Models `_get_last_security_audit`: the first truthy of the two
metadata keys, kept when it parses as an ISO date (non-string values
raise inside `fromisoformat` and yield None). -/
def getLastSecurityAudit (bom : AIBOM) : Option String :=
  if bom.metadata ≠ [] then
    let auditDate :=
      match metaGet bom.metadata "last_security_audit" with
      | some v => if v.truthy then some v else metaGet bom.metadata "security_audit_date"
      | none => metaGet bom.metadata "security_audit_date"
    match auditDate with
    | some (.mStr s) => if s ≠ "" ∧ isoDateLike s then some s else none
    | _ => none
  else none

/-- The authentication-mechanism keyword table of
`_detect_auth_mechanisms`. -/
def authKeywordTable : List (String × String) :=
  [("jwt", "JWT"), ("oauth", "OAuth"), ("saml", "SAML"),
   ("mfa", "Multi-Factor Auth"), ("2fa", "Two-Factor Auth"),
   ("ldap", "LDAP"), ("kerberos", "Kerberos")]

/-- Models `_detect_auth_mechanisms` (the `list(set(...))` modelled as
order-insensitive deduplication). -/
def detectAuthMechanisms (bom : AIBOM) : List String :=
  (bom.dependencies.flatMap (fun dep =>
    let depName := pyLower dep.name
    (authKeywordTable.filter (fun km => strContains depName km.1)).map (·.2))).dedup

/-- Models `Article15CybersecurityValidator.validate`; `incidentDocs` is
the outcome of the `_check_incident_response_docs` filesystem probe. -/
def cybersecurityValidate (bom : AIBOM) (incidentDocs : Bool) :
    CybersecurityRequirements :=
  let dataEncryption := depScanTable bom encryptionLibs
  let accessControls := depScanTable bom authLibs
  let vulnerabilityScanning := depScanTable bom securityScanningLibs
  { securityMeasuresImplemented :=
      dataEncryption || accessControls || vulnerabilityScanning,
    dataEncryption := dataEncryption,
    accessControls := accessControls,
    vulnerabilityScanning := vulnerabilityScanning,
    penetrationTesting := detectPentestingTools bom,
    incidentResponsePlan := incidentDocs,
    securityFrameworks := detectSecurityFrameworks bom,
    lastSecurityAudit := getLastSecurityAudit bom,
    securityPatchesUpdated := vulnerabilityScanning,
    authenticationMechanisms := detectAuthMechanisms bom }

/-! ## Policy engine (`actproof/compliance/policy_engine.py` and
`policy_engine_ext.py`) -/

/-- Round-half-even of a rational to an integer, modelling Python's
rounding of format specifiers. -/
def roundHalfEven (q : ℚ) : Int :=
  let f := ⌊q⌋
  let r := q - f
  if r < 1/2 then f
  else if 1/2 < r then f + 1
  else if f % 2 = 0 then f else f + 1

/-- Models the `:.1%` / `:+.1%` format specifier on a score.  The digits
a CPython double would print are abstracted by exact rational rounding;
the rendering stays a deterministic function of the value. -/
def fmtPercent1 (q : ℚ) (forceSign : Bool) : String :=
  let m := roundHalfEven (q * 1000)
  let sign := if m < 0 then "-" else if forceSign then "+" else ""
  let a := m.natAbs
  sign ++ toString (a / 10) ++ "." ++ toString (a % 10) ++ "%"

/-- Models the `:.0f` format specifier on a score (same abstraction as
`fmtPercent1`). -/
def fmtF0 (q : ℚ) : String := toString (roundHalfEven q)

/-- The `required_fields_article_11` list of `PolicyEngine.__init__`. -/
def requiredFieldsArticle11 : List String :=
  ["general_description", "intended_purpose", "context_of_use",
   "logic_description", "technical_specifications", "accuracy_metrics",
   "risk_management"]

/-- The missing-field scan of `validate_technical_documentation`.  The
first four required fields are mandatory non-None strings, for which the
source's `value is None or (isinstance(value, (dict, list)) and
len(value) == 0)` test is always false; the three dict-valued fields are
missing exactly when empty. -/
def article11MissingFieldsOf (td : TechnicalDocumentation) : List String :=
  (if td.technicalSpecifications = [] then ["technical_specifications"] else []) ++
  (if td.accuracyMetrics = [] then ["accuracy_metrics"] else []) ++
  (if td.riskManagement = [] then ["risk_management"] else [])

/-- Python truthiness of the `Optional[Dict]` human-oversight field. -/
def humanOversightTruthy : Option Metadata → Bool
  | none => false
  | some m => m ≠ []

/-- Models `PolicyEngine._generate_recommendations` (the base
technical-documentation recommendations). -/
def generateBaseRecommendations (td : TechnicalDocumentation)
    (article11Ok article14Ok article15Ok : Bool) : List String :=
  (if ¬ article11Ok then
    ["Complete all required fields in technical documentation (Article 11)"]
   else []) ++
  (if ¬ article14Ok then
    ["Implement human oversight plan with concrete measures (Article 14)"]
   else []) ++
  (if ¬ article15Ok then
    ["Provide quantitative metrics for accuracy, robustness and cybersecurity (Article 15)"]
   else []) ++
  (if td.riskLevel = .high ∧ td.transparencyMeasures = [] then
    ["Implement transparency measures to inform users (Article 13)"]
   else []) ++
  (if td.identifiedRisks = [] then
    ["Perform complete risk analysis and document all identified risks"]
   else [])

/-- Models `PolicyEngine.validate_technical_documentation`.  The
`hasattr(documentation, 'article_13_compliant')` probe is false (the
model has no such field), so Article 13 counts as passed. -/
def validateTechnicalDocumentation (td : TechnicalDocumentation) :
    AnnexIVRequirements :=
  let missingFields := article11MissingFieldsOf td
  let article11Compliant := decide (missingFields.length = 0)
  let article14Compliant :=
    if td.riskLevel = .high ∧
        (¬ humanOversightTruthy td.humanOversight ∨ td.oversightMeasures.length = 0) then
      false
    else true
  let article15Compliant := decide (0 < td.accuracyMetrics.length)
  let passedChecks :=
    article11Compliant.toNat + (true : Bool).toNat +
    article14Compliant.toNat + article15Compliant.toNat
  let complianceScore : ℚ := (passedChecks : ℚ) / 4
  let criticalGaps :=
    (if ¬ article11Compliant then
      ["Incomplete technical documentation (Article 11)"] else []) ++
    (if ¬ article14Compliant then
      ["Missing human oversight plan (Article 14)"] else []) ++
    (if ¬ article15Compliant then
      ["Accuracy metrics not provided (Article 15)"] else [])
  { article11Compliant := article11Compliant,
    article11MissingFields := missingFields,
    article13Compliant := true,
    article14Compliant := article14Compliant,
    humanOversightRequired := decide (td.riskLevel = .high),
    article15Compliant := article15Compliant,
    accuracyMetricsProvided := article15Compliant,
    complianceScore := complianceScore,
    criticalGaps := criticalGaps,
    recommendations :=
      generateBaseRecommendations td article11Compliant article14Compliant
        article15Compliant }

/-- Models `generate_comprehensive_recommendations` from
`policy_engine_ext.py`: eleven fixed priority tiers, capped at 15
entries. -/
def generateComprehensiveRecommendations (rc : AnnexIVRequirements)
    (article9 : RiskManagementSystem) (article10 : DataGovernance)
    (article12 : LoggingCapability) (annexIii : HighRiskClassification)
    (gpai : GPAICompliance) (riskLevel : RiskLevel) : List String :=
  let recs :=
    (if ¬ article10.compliant then
      ["🔴 CRITICAL: Implement Data Governance framework (Article 10) - " ++
       "Document dataset quality, assess bias, establish data lineage"]
     else []) ++
    (if ¬ article9.compliant then
      ["🔴 CRITICAL: Establish Risk Management System (Article 9) - " ++
       "Create risk register (currently " ++ toString article9.riskRegister.length ++
       " risks identified), implement mitigation measures, perform periodic reviews"]
     else []) ++
    (if ¬ article12.compliant then
      ["🔴 CRITICAL: Implement automatic logging system (Article 12) - " ++
       (if ¬ article12.automaticLoggingEnabled then "Install logging library, " else "") ++
       (if ¬ optIntTruthy article12.retentionPeriodMonths then
          "Set retention period (minimum 6 months), " else "") ++
       "ensure immutable audit trail, log input/output/decisions/timestamp"]
     else []) ++
    (if ¬ rc.article11Compliant then
      ["🔴 CRITICAL: Complete Technical Documentation (Article 11) - " ++
       "Missing fields: " ++
       String.intercalate ", " (rc.article11MissingFields.take 3) ++ "..."]
     else []) ++
    (if riskLevel = .high ∧ ¬ rc.article14Compliant then
      ["🔴 CRITICAL: Implement Human Oversight measures (Article 14) - " ++
       "Define oversight procedures, assign oversight roles, " ++
       "implement intervention mechanisms for HIGH-RISK system"]
     else []) ++
    (if riskLevel = .high then
      (match rc.article61 with
       | some a61 =>
         if ¬ a61.registrationCompleted then
           ["🟠 HIGH PRIORITY: Register system in EU Database (Article 61) - " ++
            "Required for all HIGH-RISK AI systems before market placement"]
         else []
       | none => []) ++
      (match rc.article72_73 with
       | some a72 =>
         if ¬ a72.monitoringPlanEstablished then
           ["🟠 HIGH PRIORITY: Establish Post-Market Monitoring plan (Article 72) - " ++
            "Define monitoring procedures, set review frequency, establish feedback mechanisms"]
         else []
       | none => []) ++
      (if rc.article16_17.isSome ∧ ¬ rc.article17Compliant then
        ["🟠 HIGH PRIORITY: Establish Quality Management System (Article 17) - " ++
         "Implement QMS according to Annex VI requirements: compliance strategy, " ++
         "design controls, testing procedures, change management"]
       else [])
     else []) ++
    (if annexIii.isHighRisk ∧ annexIii.annexIiiCategories ≠ [] then
      let categoryName :=
        pyTitle (pyReplace ((annexIii.annexIiiCategories.headD .noCategory).value) "_" " ")
      ["🟠 HIGH-RISK CLASSIFICATION: System classified as \x27" ++ categoryName ++
       "\x27 (Annex III) - " ++ annexIii.classificationRationale.take 100 ++ "... " ++
       "Ensure compliance with category-specific requirements"] ++
      (if annexIii.additionalRequirements ≠ [] then
        (annexIii.additionalRequirements.take 2).map (fun req => "   └─ " ++ req)
       else [])
     else []) ++
    (if 0 < gpai.gpaiModelsDetected.length then
      let gpaiNames :=
        String.intercalate ", " ((gpai.gpaiModelsDetected.take 3).map (·.name))
      (if ¬ gpai.transparencyInfoUsers then
        ["🟡 GPAI: Inform users about AI usage (Article 52 / Annex XII) - " ++
         "Detected GPAI models: " ++ gpaiNames ++
         ". Users must be informed they\x27re interacting with AI"]
       else []) ++
      (if ¬ gpai.aiGeneratedContentDisclosed then
        ["🟡 GPAI: Disclose AI-generated content (Article 52) - " ++
         "Mark all AI-generated text, images, audio, video as AI-generated"]
       else []) ++
      (if ¬ gpai.intendedUseDocumented then
        ["🟡 GPAI: Document intended use case (Deployer obligation) - " ++
         "Clearly document how GPAI models are used in your specific context"]
       else []) ++
      (if ¬ gpai.downstreamRiskAssessment then
        ["🟡 GPAI: Perform downstream risk assessment (Deployer obligation) - " ++
         "Assess risks specific to your use case of GPAI models"]
       else []) ++
      (if gpai.gpaiModelsDetected.any (·.systemicRiskThreshold) then
        ["⚠️  GPAI SYSTEMIC RISK: One or more GPAI models may exceed 10^25 FLOPs threshold - " ++
         "Additional Annex XIII requirements may apply. Verify with provider"]
       else [])
     else []) ++
    (match article10.dataQualityMetrics with
     | some dq =>
       if dq.overallScore.getD 0 < 7/10 then
         ["🟡 DATA QUALITY: Improve dataset documentation (Article 10) - " ++
          "Current quality score: " ++ fmtPercent1 (dq.overallScore.getD 0) false ++
          ". Document dataset source, size, license, metadata"]
       else []
     | none => []) ++
    (match article10.biasAssessment with
     | some ba =>
       if ba.biasDetected then
         ["🟡 BIAS DETECTED: Implement bias mitigation (Article 10) - " ++
          "Bias categories detected: " ++ String.intercalate ", " ba.biasCategories ++
          ". Perform fairness audit, implement mitigation measures"]
       else []
     | none => []) ++
    (if ¬ article10.representativenessAssessed then
      ["🟡 DATA REPRESENTATIVENESS: Assess dataset representativeness (Article 10) - " ++
       "Verify datasets are representative of target population"]
     else []) ++
    (if 0 < article9.criticalRisksCount then
      ["🟡 CRITICAL RISKS: Mitigate " ++ toString article9.criticalRisksCount ++
       " critical risk(s) (Article 9) - Address all CRITICAL severity risks before deployment"]
     else []) ++
    (if 0 < article9.unmitigatedRisksCount then
      ["🟡 RISK MITIGATION: Address " ++ toString article9.unmitigatedRisksCount ++
       " unmitigated risk(s) (Article 9) - Implement mitigation measures for all identified risks"]
     else []) ++
    (if ¬ rc.article15Compliant then
      ["🟡 METRICS: Provide quantitative accuracy metrics (Article 15) - " ++
       "Document accuracy, robustness, and cybersecurity metrics. " ++
       "Include: precision, recall, F1-score, adversarial robustness, security assessments"]
     else []) ++
    (if ¬ rc.article13Compliant then
      ["🟡 TRANSPARENCY: Implement transparency measures (Article 13) - " ++
       "Provide clear instructions for use, document limitations, " ++
       "inform users about AI system capabilities"]
     else []) ++
    (match rc.article16_17 with
     | some po =>
       let compliancePct := po.compliancePercentage * 100
       if compliancePct < 80 then
         ["🟡 PROVIDER OBLIGATIONS: Complete provider obligations (Article 16) - " ++
          "Current: " ++ fmtF0 compliancePct ++ "% compliant. " ++
          "Review Article 16 checklist and complete missing obligations"]
       else []
     | none => []) ++
    (match rc.article72_73 with
     | some a72 =>
       (if ¬ a72.incidentReportingProcedure then
         ["🟢 INCIDENT MANAGEMENT: Define incident reporting procedure (Article 73) - " ++
          "Establish process for identifying, reporting, and managing incidents"]
        else []) ++
       (if ¬ a72.incidentContactDesignated then
         ["🟢 INCIDENT CONTACT: Designate incident reporting contact (Article 73) - " ++
          "Assign responsible person/team for handling serious incidents"]
        else [])
     | none => [])
  let withFallback :=
    if recs.length < 3 then
      recs ++
      ["✅ GOOD PROGRESS: System shows strong compliance foundation. " ++
       "Focus on documentation completeness and continuous monitoring"]
    else recs
  withFallback.take 15

/-- The `core_ai_libs` list of `PolicyEngine._is_ai_system`. -/
def coreAiLibs : List String :=
  ["openai", "anthropic", "transformers", "torch", "tensorflow",
   "langchain", "sklearn", "keras", "huggingface", "llama",
   "vllm", "ollama", "cohere", "replicate"]

/-- Models `PolicyEngine._is_ai_system`: any model, any dataset, or any
AI-flagged dependency whose name contains a core AI-library name. -/
def isAiSystem (bom : AIBOM) : Bool :=
  if 0 < bom.models.length then true
  else if 0 < bom.datasets.length then true
  else
    (bom.dependencies.filter (·.isAiRelated)).any (fun dep =>
      coreAiLibs.any (fun lib => strContains (pyLower dep.name) lib))

/-- Models `PolicyEngine._assess_risk_level`. -/
def assessRiskLevel (bom : AIBOM) : RiskLevel :=
  let hasLlm := bom.models.any (fun m => m.modelType.value = "llm")
  let hasMultipleModels := decide (1 < bom.models.length)
  if hasLlm || hasMultipleModels then .high
  else if 0 < bom.models.length then .limited
  else .minimal

/-- Models `PolicyEngine._extract_documentation_from_bom`. -/
def extractDocumentationFromBom (bom : AIBOM) : TechnicalDocumentation :=
  let riskLevel := assessRiskLevel bom
  let modelsDesc := String.intercalate ", " ((bom.models.take 3).map (·.name))
  { systemName := pyReplace bom.name "AI-BOM for " "",
    systemType := .standalone,
    riskLevel := riskLevel,
    generalDescription :=
      if bom.models ≠ [] then "AI system using: " ++ modelsDesc else "AI system",
    intendedPurpose := "To be specified",
    contextOfUse := "To be specified",
    logicDescription := "To be extracted from code with LLM",
    softwareDependencies := (bom.dependencies.take 10).map (·.name) }

/-- Models `PolicyEngine._create_non_ai_compliance_result`.  The source
passes `article_16=ProviderObligations(...)` which the extended
`AnnexIVRequirements` model has no field for; pydantic ignores the extra
key, so `article_16_17` stays `None`. -/
def createNonAiComplianceResult (bom : AIBOM) (systemId : String) :
    ComplianceResult :=
  { systemId := systemId,
    compliant := true,
    riskLevel := .minimal,
    technicalDocumentation := some
      { systemName := pyReplace bom.name "AI-BOM for " "",
        systemType := .standalone,
        riskLevel := .minimal,
        generalDescription := "Non-AI system - EU AI Act not applicable",
        intendedPurpose := "Not an AI system",
        contextOfUse := "Standard software application",
        logicDescription := "No AI/ML logic detected" },
    requirementsCheck :=
      { article8 := some
          { allRequirementsMet := true,
            conformityDeclarationSigned := true,
            ceMarkingAffixed := true,
            obligationsThroughoutLifecycle := true },
        article9 := some
          { continuousProcessEstablished := true,
            riskRegister := [],
            residualRisksAcceptable := true },
        article9Compliant := true,
        article10 := some
          { datasetsDocumented := true, gdprComplianceVerified := true },
        article10Compliant := true,
        article11Compliant := true,
        article11MissingFields := [],
        article12 := some { automaticLoggingEnabled := true },
        article12Compliant := true,
        article13Compliant := true,
        article14Compliant := true,
        humanOversightRequired := false,
        article15Compliant := true,
        accuracyMetricsProvided := true,
        article15Accuracy := some
          { metricsDefined := true, testingProceduresDocumented := true },
        article15Robustness := some { errorHandlingImplemented := true },
        article15Cybersecurity := some { securityMeasuresImplemented := true },
        article16_17 := none,
        article16Compliant := true,
        article17Compliant := true,
        article61 := some
          { registrationRequired := false, systemName := some bom.name },
        article61Compliant := true,
        article72_73 := some {},
        article72Compliant := true,
        article73Compliant := true,
        annexIii := some
          { isHighRisk := false,
            classificationRationale := "Non-AI system - EU AI Act not applicable" },
        gpai := some { gpaiModelsDetected := [], userRole := .deployer },
        gpaiCompliant := true,
        complianceScore := 1,
        criticalGaps := [],
        recommendations :=
          ["No action required - this is not an AI system subject to EU AI Act"] },
    aiBomId := some bom.spdxId }

/-- Models step 5 of `evaluate_compliance`: the deterministic fixed-order
critical-gap collection. -/
def criticalGapsList (a10c a9c a12c a11c a14c : Bool) (riskLevel : RiskLevel)
    (a15acc a15rob a15cyb a16c a17c a61c a72c gpaiCompliant : Bool)
    (gpaiDetected : Nat) : List String :=
  (if ¬ a10c then
    ["Data Governance non-compliant (Article 10) - Quality, bias, lineage"] else []) ++
  (if ¬ a9c then
    ["Risk Management System not established (Article 9)"] else []) ++
  (if ¬ a12c then
    ["Automatic logging not implemented (Article 12)"] else []) ++
  (if ¬ a11c then
    ["Incomplete technical documentation (Article 11)"] else []) ++
  (if ¬ a14c ∧ riskLevel = .high then
    ["Human Oversight missing for HIGH-RISK system (Article 14)"] else []) ++
  (if ¬ a15acc then
    ["Accuracy metrics not properly defined or evaluated (Article 15)"] else []) ++
  (if ¬ a15rob then
    ["Robustness measures insufficient (Article 15)"] else []) ++
  (if ¬ a15cyb then
    ["Cybersecurity requirements not satisfied (Article 15)"] else []) ++
  (if ¬ a16c then
    ["Provider Obligations not satisfied (Article 16)"] else []) ++
  (if ¬ a17c ∧ riskLevel = .high then
    ["Quality Management System not established (Article 17)"] else []) ++
  (if ¬ a61c ∧ riskLevel = .high then
    ["EU Database registration missing for HIGH-RISK system (Article 61)"] else []) ++
  (if ¬ a72c ∧ riskLevel = .high then
    ["Post-Market Monitoring Plan missing (Article 72)"] else []) ++
  (if ¬ gpaiCompliant ∧ 0 < gpaiDetected then
    ["GPAI Compliance not satisfied (Annex X-XIII)"] else [])

/-- Models step 7 of `evaluate_compliance`: overall compliance requires a
score of at least 0.85, zero critical gaps, and — for HIGH-risk systems —
individual compliance of articles 9, 10, 12, 11 and 14. -/
def overallCompliant (complianceScore : ℚ) (criticalGaps : List String)
    (riskLevel : RiskLevel) (a9c a10c a12c a11c a14c : Bool) : Bool :=
  let highPriorityCompliant :=
    if riskLevel = .high then a9c && a10c && a12c && a11c && a14c else true
  decide ((85 : ℚ)/100 ≤ complianceScore) &&
  decide (criticalGaps.length = 0) &&
  highPriorityCompliant

/-- The boolean outcomes of the two filesystem documentation probes the
validators perform (both false when no codebase path is supplied). -/
structure CodebaseFacts where
  testingDocs : Bool := false
  incidentDocs : Bool := false
deriving DecidableEq

/-- Step 1 of `evaluate_compliance`: the technical documentation after
the Annex III override (`technical_doc.risk_level = RiskLevel.HIGH` when
the classifier flags the system high-risk). -/
def tdAfterAnnex (bom : AIBOM) (td : TechnicalDocumentation) :
    TechnicalDocumentation :=
  if (highRiskClassify bom).isHighRisk then { td with riskLevel := .high } else td

/-- The Annex III category fed to the risk-management validator (the
first detected category, when any). -/
def evalAnnexCategory (bom : AIBOM) : Option AnnexIIICategory :=
  (highRiskClassify bom).annexIiiCategories.head?

/-- The Article 9 validation of `evaluate_compliance`. -/
def evalArticle9 (bom : AIBOM) (td : TechnicalDocumentation) :
    RiskManagementSystem :=
  riskManagementValidate bom (tdAfterAnnex bom td).riskLevel (evalAnnexCategory bom)

/-- The Articles 11-15 base validation of `evaluate_compliance`. -/
def evalBase (bom : AIBOM) (td : TechnicalDocumentation) : AnnexIVRequirements :=
  validateTechnicalDocumentation (tdAfterAnnex bom td)

/-- The Articles 16-17 validation of `evaluate_compliance`. -/
def evalArticle16_17 (bom : AIBOM) (td : TechnicalDocumentation) :
    ProviderObligations :=
  providerObligationsValidate bom (tdAfterAnnex bom td).riskLevel

/-- `article_17_compliant`: the QMS verdict when a QMS is present. -/
def evalArticle17Compliant (bom : AIBOM) (td : TechnicalDocumentation) : Bool :=
  match (evalArticle16_17 bom td).qms with
  | some qms => qms.compliant
  | none => false

/-- The Article 61 validation of `evaluate_compliance`. -/
def evalArticle61 (bom : AIBOM) (td : TechnicalDocumentation) :
    EUDatabaseRegistration :=
  euDatabaseValidate (tdAfterAnnex bom td).riskLevel (tdAfterAnnex bom td).systemName

/-- The Articles 72-73 validation of `evaluate_compliance`. -/
def evalArticle72_73 (bom : AIBOM) (td : TechnicalDocumentation) :
    PostMarketMonitoring :=
  postMarketValidate (tdAfterAnnex bom td).riskLevel

/-- Step 3 of `evaluate_compliance`: GPAI compliance counts as satisfied
when no GPAI model is detected, and is the deployer verdict otherwise. -/
def evalGpaiCompliant (bom : AIBOM) : Bool :=
  if 0 < (gpaiValidate bom).gpaiModelsDetected.length then
    (gpaiValidate bom).compliantAsDeployer
  else true

/-- The extended `AnnexIVRequirements` assembled in step 4 of
`evaluate_compliance`, before score, gaps and recommendations are
filled in. -/
def evalRc0 (bom : AIBOM) (td : TechnicalDocumentation)
    (facts : CodebaseFacts) : AnnexIVRequirements :=
  { article11Compliant := (evalBase bom td).article11Compliant,
    article11MissingFields := (evalBase bom td).article11MissingFields,
    article13Compliant := (evalBase bom td).article13Compliant,
    article14Compliant := (evalBase bom td).article14Compliant,
    humanOversightRequired := (evalBase bom td).humanOversightRequired,
    article15Compliant := (evalBase bom td).article15Compliant,
    accuracyMetricsProvided := (evalBase bom td).accuracyMetricsProvided,
    article8 := some article8Validate,
    article9 := some (evalArticle9 bom td),
    article9Compliant := (evalArticle9 bom td).compliant,
    article10 := some (dataGovernanceValidate bom),
    article10Compliant := (dataGovernanceValidate bom).compliant,
    article12 := some (loggingValidate bom),
    article12Compliant := (loggingValidate bom).compliant,
    article15Accuracy := some (accuracyValidate bom facts.testingDocs),
    article15Robustness := some (robustnessValidate bom),
    article15Cybersecurity := some (cybersecurityValidate bom facts.incidentDocs),
    article16_17 := some (evalArticle16_17 bom td),
    article16Compliant := (evalArticle16_17 bom td).conformityAssessmentCompleted,
    article17Compliant := evalArticle17Compliant bom td,
    article61 := some (evalArticle61 bom td),
    article61Compliant := (evalArticle61 bom td).compliant,
    article72_73 := some (evalArticle72_73 bom td),
    article72Compliant := (evalArticle72_73 bom td).compliant,
    article73Compliant := (evalArticle72_73 bom td).incidentReportingProcedure,
    annexIii := some (highRiskClassify bom),
    gpai := some (gpaiValidate bom),
    gpaiCompliant := evalGpaiCompliant bom,
    complianceScore := 0,
    criticalGaps := [],
    recommendations := [] }

/-- Step 4: the denominator of the compliance score. -/
def evalTotalArticles (bom : AIBOM) (td : TechnicalDocumentation)
    (facts : CodebaseFacts) : Nat :=
  (evalRc0 bom td facts).totalArticlesChecked +
  (if 0 < (gpaiValidate bom).gpaiModelsDetected.length then 1 else 0)

/-- Step 4: the numerator of the compliance score. -/
def evalCompliantArticles (bom : AIBOM) (td : TechnicalDocumentation)
    (facts : CodebaseFacts) : Nat :=
  (evalRc0 bom td facts).articlesCompliantCount +
  (if 0 < (gpaiValidate bom).gpaiModelsDetected.length ∧
      evalGpaiCompliant bom = true then 1 else 0)

/-- Step 4: the compliance score. -/
def evalScore (bom : AIBOM) (td : TechnicalDocumentation)
    (facts : CodebaseFacts) : ℚ :=
  if 0 < evalTotalArticles bom td facts then
    (evalCompliantArticles bom td facts : ℚ) / (evalTotalArticles bom td facts : ℚ)
  else 0

/-- Step 5: the collected critical gaps. -/
def evalGaps (bom : AIBOM) (td : TechnicalDocumentation)
    (facts : CodebaseFacts) : List String :=
  criticalGapsList
    (dataGovernanceValidate bom).compliant
    (evalArticle9 bom td).compliant
    (loggingValidate bom).compliant
    (evalBase bom td).article11Compliant
    (evalBase bom td).article14Compliant
    (tdAfterAnnex bom td).riskLevel
    (accuracyValidate bom facts.testingDocs).compliant
    (robustnessValidate bom).compliant
    (cybersecurityValidate bom facts.incidentDocs).compliant
    (evalArticle16_17 bom td).conformityAssessmentCompleted
    (evalArticle17Compliant bom td)
    (evalArticle61 bom td).compliant
    (evalArticle72_73 bom td).compliant
    (evalGpaiCompliant bom)
    (gpaiValidate bom).gpaiModelsDetected.length

/-- The requirements check after step 5 (score and gaps filled in). -/
def evalRc1 (bom : AIBOM) (td : TechnicalDocumentation)
    (facts : CodebaseFacts) : AnnexIVRequirements :=
  { evalRc0 bom td facts with
    complianceScore := evalScore bom td facts,
    criticalGaps := evalGaps bom td facts }

/-- Step 6: the comprehensive recommendations. -/
def evalRecommendations (bom : AIBOM) (td : TechnicalDocumentation)
    (facts : CodebaseFacts) : List String :=
  generateComprehensiveRecommendations (evalRc1 bom td facts)
    (evalArticle9 bom td) (dataGovernanceValidate bom) (loggingValidate bom)
    (highRiskClassify bom) (gpaiValidate bom) (tdAfterAnnex bom td).riskLevel

/-- The final requirements check (recommendations filled in). -/
def evalRc (bom : AIBOM) (td : TechnicalDocumentation)
    (facts : CodebaseFacts) : AnnexIVRequirements :=
  { evalRc1 bom td facts with
    recommendations := evalRecommendations bom td facts }

/-- Step 7: the overall verdict. -/
def evalCompliant (bom : AIBOM) (td : TechnicalDocumentation)
    (facts : CodebaseFacts) : Bool :=
  overallCompliant (evalScore bom td facts) (evalGaps bom td facts)
    (tdAfterAnnex bom td).riskLevel
    (evalArticle9 bom td).compliant
    (dataGovernanceValidate bom).compliant
    (loggingValidate bom).compliant
    (evalBase bom td).article11Compliant
    (evalBase bom td).article14Compliant

/-- The AI-system branch of `PolicyEngine.evaluate_compliance` (steps 1
through 8, in source order: high-risk classification first, its outcome
overriding the risk level, then all article validators, score
aggregation, critical-gap collection, recommendations, and the overall
verdict). -/
def evaluateAi (bom : AIBOM) (technicalDoc : TechnicalDocumentation)
    (systemId : String) (facts : CodebaseFacts) : ComplianceResult :=
  { systemId := systemId,
    compliant := evalCompliant bom technicalDoc facts,
    riskLevel := (tdAfterAnnex bom technicalDoc).riskLevel,
    technicalDocumentation := some (tdAfterAnnex bom technicalDoc),
    requirementsCheck := evalRc bom technicalDoc facts,
    aiBomId := some bom.spdxId }

/-- Models `PolicyEngine.evaluate_compliance`: system id defaulting, the
non-AI short-circuit, technical-documentation extraction from the BOM
when none is supplied, then the AI-system evaluation. -/
def evaluateCompliance (bom : AIBOM)
    (technicalDoc : Option TechnicalDocumentation)
    (systemId : Option String) (facts : CodebaseFacts) : ComplianceResult :=
  let sid := systemId.getD bom.spdxId
  if isAiSystem bom then
    evaluateAi bom (technicalDoc.getD (extractDocumentationFromBom bom)) sid facts
  else
    createNonAiComplianceResult bom sid

/-! ## Diff engine (`actproof/compliance/diff_engine.py`)

Python's `set` iteration order is hash-based and arbitrary; set
differences and intersections are modelled as deduplicated filtered
lists, which agree with the source on membership and emptiness (the
properties its consumers rely on). -/

structure ArticleDelta where
  article : String
  baseCompliant : Bool
  headCompliant : Bool
  changed : Bool
  direction : String
  details : List (String × List String) := []
deriving DecidableEq

structure ComplianceGapDelta where
  gap : String
  status : String
deriving DecidableEq

structure FileDelta where
  filePath : String
  changeType : String
  affectedArticles : List String := []
deriving DecidableEq

/-- One entry of the optional `changed_files` argument of
`compute_diff` (a dict with `path` and `status` keys). -/
structure FileChange where
  path : String := ""
  status : String := "modified"
deriving DecidableEq

/-- The fields of `ComplianceDiffResult`.  `diff_timestamp` is the
ambient clock value recorded at construction; the diff hash provably
does not depend on it. -/
structure ComplianceDiffResult where
  schemaVersion : String := "1.0.0"
  repoId : String
  baseCommit : String
  headCommit : String
  diffTimestamp : String := ""
  baseScore : ℚ
  headScore : ℚ
  scoreDelta : ℚ
  scoreDirection : String
  baseRiskLevel : RiskLevel
  headRiskLevel : RiskLevel
  riskLevelChanged : Bool
  articleDeltas : List ArticleDelta := []
  improvedArticles : List String := []
  degradedArticles : List String := []
  gapDeltas : List ComplianceGapDelta := []
  newCriticalGaps : List String := []
  resolvedGaps : List String := []
  changedFiles : List FileDelta := []
  summary : String
  baseResultHash : String
  headResultHash : String
  diffHash : String := ""
deriving DecidableEq

/-- Models `ComplianceDiffResult.compute_diff_hash`: SHA-256 over the
sorted-keys JSON of the nine defining fields (schema version, repo id,
both commits, both scores, the score delta, and both result hashes). -/
def ComplianceDiffResult.computeDiffHash (d : ComplianceDiffResult) : String :=
  sha256Hex (dumpsSorted
    [("schema_version", .jstr d.schemaVersion),
     ("repo_id", .jstr d.repoId),
     ("base_commit", .jstr d.baseCommit),
     ("head_commit", .jstr d.headCommit),
     ("base_score", .jnum d.baseScore),
     ("head_score", .jnum d.headScore),
     ("score_delta", .jnum d.scoreDelta),
     ("base_result_hash", .jstr d.baseResultHash),
     ("head_result_hash", .jstr d.headResultHash)])

/-- Builds one entry of `_compute_article_deltas`. -/
def mkArticleDelta (articleName : String) (baseVal headVal : Bool)
    (details : List (String × List String)) : ArticleDelta :=
  let changed := baseVal ≠ headVal
  { article := articleName,
    baseCompliant := baseVal,
    headCompliant := headVal,
    changed := changed,
    direction :=
      if changed then (if headVal ∧ ¬ baseVal then "improved" else "degraded")
      else "unchanged",
    details := details }

/-- Models `ComplianceDiffEngine._compute_article_deltas` (the four
tracked articles, with the extra missing-field details on Article 11). -/
def computeArticleDeltas (baseReq headReq : AnnexIVRequirements) :
    List ArticleDelta :=
  let a11Details :=
    [("base_missing_fields", baseReq.article11MissingFields),
     ("head_missing_fields", headReq.article11MissingFields)] ++
    (if baseReq.article11MissingFields ≠ headReq.article11MissingFields then
      [("fields_added",
        baseReq.article11MissingFields.filter
          (fun f => f ∉ headReq.article11MissingFields)),
       ("fields_still_missing", headReq.article11MissingFields)]
     else [])
  [mkArticleDelta "Article 11 (Technical Documentation)"
     baseReq.article11Compliant headReq.article11Compliant a11Details,
   mkArticleDelta "Article 13 (Transparency)"
     baseReq.article13Compliant headReq.article13Compliant [],
   mkArticleDelta "Article 14 (Human Oversight)"
     baseReq.article14Compliant headReq.article14Compliant [],
   mkArticleDelta "Article 15 (Accuracy & Robustness)"
     baseReq.article15Compliant headReq.article15Compliant []]

/-- Set difference of gap lists (deduplicated, order-insensitive model
of Python's `set` difference). -/
def pySetDiff (xs ys : List String) : List String :=
  xs.dedup.filter (fun g => g ∉ ys)

/-- Set intersection of gap lists. -/
def pySetInter (xs ys : List String) : List String :=
  xs.dedup.filter (fun g => g ∈ ys)

/-- Models `ComplianceDiffEngine._compute_gap_deltas`: new gaps
(head minus base), resolved gaps (base minus head), existing gaps
(intersection). -/
def computeGapDeltas (baseGaps headGaps : List String) :
    List ComplianceGapDelta :=
  ((pySetDiff headGaps baseGaps).map
     (fun g => ({ gap := g, status := "new" } : ComplianceGapDelta))) ++
  ((pySetDiff baseGaps headGaps).map
     (fun g => ({ gap := g, status := "resolved" } : ComplianceGapDelta))) ++
  ((pySetInter headGaps baseGaps).map
     (fun g => ({ gap := g, status := "existing" } : ComplianceGapDelta)))

/-- Models `ComplianceDiffEngine._analyze_file_changes` (only invoked
usefully when degraded articles exist; capped at 10 files). -/
def analyzeFileChanges (changedFiles : Option (List FileChange))
    (degradedArticles : List String) : List FileDelta :=
  match changedFiles with
  | none => []
  | some files =>
    if files = [] then []
    else
      (files.map (fun fileInfo =>
        let affected :=
          if degradedArticles ≠ [] ∧
              [".py", ".js", ".ts", ".java"].any
                (fun ext => strContains fileInfo.path ext) then
            degradedArticles.take 2
          else []
        ({ filePath := fileInfo.path,
           changeType := fileInfo.status,
           affectedArticles := affected } : FileDelta))).take 10

/-- Models `ComplianceDiffEngine._generate_summary` (the source embeds a
leading newline in each appended line before joining with newlines). -/
def generateSummary (direction : String) (delta : ℚ)
    (improved degraded newGaps resolvedGaps : List String) : String :=
  let lines :=
    [if direction = "improved" then
       "✅ Compliance score improved by " ++ fmtPercent1 delta true
     else if direction = "degraded" then
       "⚠️  Compliance score degraded by " ++ fmtPercent1 delta false
     else
       "➖ Compliance score unchanged (" ++ fmtPercent1 delta true ++ ")"] ++
    (if improved ≠ [] then
      ["\nImproved articles (" ++ toString improved.length ++ "): " ++
       String.intercalate ", " improved]
     else []) ++
    (if degraded ≠ [] then
      ["\n⚠️  Degraded articles (" ++ toString degraded.length ++ "): " ++
       String.intercalate ", " degraded]
     else []) ++
    (if newGaps ≠ [] then
      ["\n⚠️  New critical gaps (" ++ toString newGaps.length ++ ")"] else []) ++
    (if resolvedGaps ≠ [] then
      ["\n✅ Resolved gaps (" ++ toString resolvedGaps.length ++ ")"] else [])
  String.intercalate "\n" lines

/-- Models `ComplianceDiffEngine._hash_compliance_result`: SHA-256 over
the sorted-keys JSON of system id, overall verdict, compliance score,
risk level, and the sorted critical gaps. -/
def hashComplianceResult (result : ComplianceResult) : String :=
  sha256Hex (dumpsSorted
    [("system_id", .jstr result.systemId),
     ("compliant", .jbool result.compliant),
     ("compliance_score", .jnum result.requirementsCheck.complianceScore),
     ("risk_level", .jstr result.riskLevel.value),
     ("critical_gaps",
      .jarr ((strSort result.requirementsCheck.criticalGaps).map .jstr))])

/-- Models `ComplianceDiffEngine.compute_diff`.  `now` is the ambient
clock recorded into `diff_timestamp`; everything else is a pure function
of the inputs. -/
def computeDiff (baseResult headResult : ComplianceResult)
    (repoId baseCommit headCommit : String)
    (changedFiles : Option (List FileChange)) (now : String) :
    ComplianceDiffResult :=
  let baseScore := baseResult.requirementsCheck.complianceScore
  let headScore := headResult.requirementsCheck.complianceScore
  let scoreDelta := headScore - baseScore
  let scoreDirection :=
    if |scoreDelta| < 1/100 then "unchanged"
    else if 0 < scoreDelta then "improved"
    else "degraded"
  let articleDeltas :=
    computeArticleDeltas baseResult.requirementsCheck headResult.requirementsCheck
  let improvedArticles :=
    (articleDeltas.filter (fun a => a.direction = "improved")).map (·.article)
  let degradedArticles :=
    (articleDeltas.filter (fun a => a.direction = "degraded")).map (·.article)
  let gapDeltas :=
    computeGapDeltas baseResult.requirementsCheck.criticalGaps
      headResult.requirementsCheck.criticalGaps
  let newGaps := (gapDeltas.filter (fun g => g.status = "new")).map (·.gap)
  let resolvedGaps := (gapDeltas.filter (fun g => g.status = "resolved")).map (·.gap)
  let fileDeltas := analyzeFileChanges changedFiles degradedArticles
  let summary :=
    generateSummary scoreDirection scoreDelta improvedArticles degradedArticles
      newGaps resolvedGaps
  let baseHash := hashComplianceResult baseResult
  let headHash := hashComplianceResult headResult
  let diffResult : ComplianceDiffResult :=
    { repoId := repoId,
      baseCommit := baseCommit,
      headCommit := headCommit,
      diffTimestamp := now,
      baseScore := baseScore,
      headScore := headScore,
      scoreDelta := scoreDelta,
      scoreDirection := scoreDirection,
      baseRiskLevel := baseResult.riskLevel,
      headRiskLevel := headResult.riskLevel,
      riskLevelChanged := decide (baseResult.riskLevel ≠ headResult.riskLevel),
      articleDeltas := articleDeltas,
      improvedArticles := improvedArticles,
      degradedArticles := degradedArticles,
      gapDeltas := gapDeltas,
      newCriticalGaps := newGaps,
      resolvedGaps := resolvedGaps,
      changedFiles := fileDeltas,
      summary := summary,
      baseResultHash := baseHash,
      headResultHash := headHash,
      diffHash := "" }
  { diffResult with diffHash := diffResult.computeDiffHash }

/-! ## Concrete instances used by counterexamples and witnesses -/

/-- A risk register entry of CRITICAL severity whose status is MITIGATED
(so it is not an unmitigated risk). -/
def mitigatedCriticalRisk : Risk :=
  { riskId := "RISK-X-001",
    title := "Mitigated critical risk",
    description := "A critical risk that has been mitigated",
    category := .other,
    severity := .critical,
    likelihood := .low,
    status := .mitigated }

/-- A risk management system with an established process, acceptable
residual risks, and exactly one CRITICAL risk that is already
mitigated. -/
def rmsMitigatedCritical : RiskManagementSystem :=
  { continuousProcessEstablished := true,
    riskRegister := [mitigatedCriticalRisk],
    residualRisksAcceptable := true }

/-- Config-sourced dependency named with a hyphen separator. -/
def cfgDepHyphen : ConfigDep := { name := "sentence-transformers" }

/-- Config-sourced dependency named with an underscore separator. -/
def cfgDepUnderscore : ConfigDep := { name := "sentence_transformers" }

/-- A requirements check carrying only a critical-gap list (everything
else at its declared defaults). -/
def rcOfGaps (gaps : List String) : AnnexIVRequirements :=
  { criticalGaps := gaps }

/-- A compliance result carrying a given critical-gap list. -/
def crOfGaps (gaps : List String) : ComplianceResult :=
  { systemId := "sys",
    compliant := false,
    riskLevel := .minimal,
    requirementsCheck := rcOfGaps gaps }

/-- A BOM with no models, no datasets, and one non-AI dependency. -/
def bomNonAi : AIBOM :=
  { spdxId := "SPDXRef-DOC-1",
    name := "AI-BOM for plainapp",
    documentNamespace := "https://example.org/spdx/plainapp",
    creator := "scanner",
    dependencies := [{ name := "requests" }] }

/-- A BOM with one custom model (and nothing else), hence classified as
an AI system. -/
def bomOneModel : AIBOM :=
  { spdxId := "SPDXRef-DOC-2",
    name := "AI-BOM for mlapp",
    documentNamespace := "https://example.org/spdx/mlapp",
    creator := "scanner",
    models := [{ name := "mymodel", modelType := .custom }] }

/-- The codebase facts when no codebase path is supplied (both
documentation probes return false). -/
def noCodebase : CodebaseFacts := {}

/-! ## Theorems -/

/-- C9: constructing an AIBOM succeeds exactly when the `spdx_id` starts
with `SPDXRef-` and the `document_namespace` starts with `https://`; a
malformed identifier or namespace yields a validation error instead of
an AIBOM value. -/
theorem C9_mkAIBOM_ok_iff (spdxId name ns creator : String)
    (models : List ModelComponent) (datasets : List DatasetComponent)
    (deps : List DependencyComponent) (repoUrl repoCommit : Option String)
    (md : Metadata) :
    (∃ bom, mkAIBOM spdxId name ns creator models datasets deps repoUrl repoCommit md
        = .ok bom) ↔
      (spdxId.startsWith "SPDXRef-" = true ∧ ns.startsWith "https://" = true) := by
  unfold mkAIBOM
  by_cases h1 : spdxId.startsWith "SPDXRef-" <;>
    by_cases h2 : ns.startsWith "https://" <;>
      simp [h1, h2]

/-- C5 counterexample: a risk management system whose only CRITICAL risk
is already mitigated (so there are zero CRITICAL-severity unmitigated
risks) with the process established and residual risks acceptable is
still not compliant, because `compliant` counts CRITICAL risks
regardless of status.  The claimed equivalence fails at this value. -/
theorem C5_counterexample :
    ¬ ((rmsMitigatedCritical.compliant = true) ↔
       (rmsMitigatedCritical.continuousProcessEstablished = true ∧
        rmsMitigatedCritical.riskRegister ≠ [] ∧
        (rmsMitigatedCritical.riskRegister.filter (fun r =>
          r.severity = RiskSeverity.critical ∧
          r.status = RiskStatus.identified)).length = 0 ∧
        rmsMitigatedCritical.residualRisksAcceptable = true)) := by
  decide

/-- C5 (amended): for every RiskManagementSystem value, `compliant` holds
if and only if the continuous process is established, the risk register
is non-empty, the register contains zero CRITICAL-severity risks
(counted regardless of mitigation status), and residual risks are
acceptable. -/
theorem C5_compliant_iff (s : RiskManagementSystem) :
    s.compliant = true ↔
      (s.continuousProcessEstablished = true ∧
       s.riskRegister ≠ [] ∧
       (s.riskRegister.filter (fun r =>
         r.severity = RiskSeverity.critical)).length = 0 ∧
       s.residualRisksAcceptable = true) := by
  simp only [RiskManagementSystem.compliant,
    RiskManagementSystem.criticalRisksCount, Bool.and_eq_true,
    decide_eq_true_eq, List.length_pos, and_assoc]

/-- C8: the diff's `score_delta` is the head score minus the base score,
and `score_direction` is `unchanged` when the absolute delta is within
the 0.01 epsilon, `improved` when the delta is positive beyond it, and
`degraded` when it is negative beyond it. -/
theorem C8_score_delta_direction (base head : ComplianceResult)
    (repoId baseCommit headCommit : String)
    (changedFiles : Option (List FileChange)) (now : String) :
    (computeDiff base head repoId baseCommit headCommit changedFiles now).scoreDelta =
      head.requirementsCheck.complianceScore - base.requirementsCheck.complianceScore ∧
    (computeDiff base head repoId baseCommit headCommit changedFiles now).scoreDirection =
      (if |head.requirementsCheck.complianceScore -
            base.requirementsCheck.complianceScore| < 1/100 then "unchanged"
       else if 0 < head.requirementsCheck.complianceScore -
            base.requirementsCheck.complianceScore then "improved"
       else "degraded") :=
  ⟨rfl, rfl⟩

/-- C4: `compute_diff` is reproducible — two calls on identical inputs
(under different ambient clocks) yield the same `diff_hash`; the hash is
the SHA-256 of the sorted-keys JSON of exactly (schema_version, repo_id,
base_commit, head_commit, base_score, head_score, score_delta,
base_result_hash, head_result_hash), where each result hash is the
SHA-256 of the sorted-keys JSON of (system_id, compliant,
compliance_score, risk_level, sorted critical_gaps); no timestamp enters
either hash input. -/
theorem C4_diff_hash_reproducible (base head : ComplianceResult)
    (repoId baseCommit headCommit : String)
    (changedFiles : Option (List FileChange)) (t1 t2 : String) :
    (computeDiff base head repoId baseCommit headCommit changedFiles t1).diffHash =
      (computeDiff base head repoId baseCommit headCommit changedFiles t2).diffHash ∧
    (computeDiff base head repoId baseCommit headCommit changedFiles t1).diffHash =
      sha256Hex (dumpsSorted
        [("schema_version", .jstr "1.0.0"),
         ("repo_id", .jstr repoId),
         ("base_commit", .jstr baseCommit),
         ("head_commit", .jstr headCommit),
         ("base_score", .jnum base.requirementsCheck.complianceScore),
         ("head_score", .jnum head.requirementsCheck.complianceScore),
         ("score_delta", .jnum (head.requirementsCheck.complianceScore -
            base.requirementsCheck.complianceScore)),
         ("base_result_hash", .jstr (hashComplianceResult base)),
         ("head_result_hash", .jstr (hashComplianceResult head))]) ∧
    hashComplianceResult base =
      sha256Hex (dumpsSorted
        [("system_id", .jstr base.systemId),
         ("compliant", .jbool base.compliant),
         ("compliance_score", .jnum base.requirementsCheck.complianceScore),
         ("risk_level", .jstr base.riskLevel.value),
         ("critical_gaps",
          .jarr ((strSort base.requirementsCheck.criticalGaps).map Json.jstr))]) :=
  ⟨rfl, rfl, rfl⟩

/-- The gaps flagged `new` by `_compute_gap_deltas` are exactly the head
gaps absent from the base gaps. -/
theorem gapDeltas_filter_new (baseGaps headGaps : List String) :
    (((computeGapDeltas baseGaps headGaps).filter
        (fun g => g.status = "new")).map (·.gap)) =
      pySetDiff headGaps baseGaps := by
  unfold computeGapDeltas
  induction pySetDiff headGaps baseGaps with
  | nil =>
    simp only [List.map_nil, List.nil_append]
    induction pySetDiff baseGaps headGaps with
    | nil =>
      simp only [List.map_nil, List.nil_append]
      induction pySetInter headGaps baseGaps with
      | nil => simp
      | cons x xs ih => simpa using ih
    | cons x xs ih => simpa using ih
  | cons x xs ih => simpa using ih

/-- The gaps flagged `resolved` by `_compute_gap_deltas` are exactly the
base gaps absent from the head gaps. -/
theorem gapDeltas_filter_resolved (baseGaps headGaps : List String) :
    (((computeGapDeltas baseGaps headGaps).filter
        (fun g => g.status = "resolved")).map (·.gap)) =
      pySetDiff baseGaps headGaps := by
  unfold computeGapDeltas
  induction pySetDiff headGaps baseGaps with
  | nil =>
    simp only [List.map_nil, List.nil_append]
    induction pySetDiff baseGaps headGaps with
    | nil =>
      simp only [List.map_nil, List.nil_append]
      induction pySetInter headGaps baseGaps with
      | nil => simp
      | cons x xs ih => simpa using ih
    | cons x xs ih => simpa using ih
  | cons x xs ih => simpa using ih

/-- The `new_critical_gaps` of a computed diff are the head gaps absent
from the base gaps. -/
theorem computeDiff_newCriticalGaps (base head : ComplianceResult)
    (repoId baseCommit headCommit : String)
    (changedFiles : Option (List FileChange)) (now : String) :
    (computeDiff base head repoId baseCommit headCommit changedFiles now).newCriticalGaps =
      pySetDiff head.requirementsCheck.criticalGaps
        base.requirementsCheck.criticalGaps :=
  gapDeltas_filter_new _ _

/-- The `resolved_gaps` of a computed diff are the base gaps absent from
the head gaps. -/
theorem computeDiff_resolvedGaps (base head : ComplianceResult)
    (repoId baseCommit headCommit : String)
    (changedFiles : Option (List FileChange)) (now : String) :
    (computeDiff base head repoId baseCommit headCommit changedFiles now).resolvedGaps =
      pySetDiff base.requirementsCheck.criticalGaps
        head.requirementsCheck.criticalGaps :=
  gapDeltas_filter_resolved _ _

/-- C7: when the head result's critical-gap set strictly contains the
base result's critical-gap set, the diff has a non-empty
`new_critical_gaps` list and an empty `resolved_gaps` list. -/
theorem C7_superset_gaps (base head : ComplianceResult)
    (repoId baseCommit headCommit : String)
    (changedFiles : Option (List FileChange)) (now : String)
    (hsub : ∀ g ∈ base.requirementsCheck.criticalGaps,
      g ∈ head.requirementsCheck.criticalGaps)
    (hstrict : ∃ g ∈ head.requirementsCheck.criticalGaps,
      g ∉ base.requirementsCheck.criticalGaps) :
    (computeDiff base head repoId baseCommit headCommit changedFiles now).newCriticalGaps
      ≠ [] ∧
    (computeDiff base head repoId baseCommit headCommit changedFiles now).resolvedGaps
      = [] := by
  rw [computeDiff_newCriticalGaps, computeDiff_resolvedGaps]
  constructor
  · obtain ⟨g, hgh, hgb⟩ := hstrict
    have hmem : g ∈ pySetDiff head.requirementsCheck.criticalGaps
        base.requirementsCheck.criticalGaps := by
      unfold pySetDiff
      simp only [List.mem_filter, List.mem_dedup, decide_eq_true_eq]
      exact ⟨hgh, by simpa using hgb⟩
    exact List.ne_nil_of_mem hmem
  · unfold pySetDiff
    apply List.filter_eq_nil.mpr
    intro g hg
    have : g ∈ head.requirementsCheck.criticalGaps :=
      hsub g (List.mem_dedup.mp hg)
    simpa using this

/-- C7 witness: base gaps `["A"]`, head gaps `["A", "B"]`. -/
theorem C7_superset_gaps_witness :
    (∀ g ∈ (crOfGaps ["A"]).requirementsCheck.criticalGaps,
      g ∈ (crOfGaps ["A", "B"]).requirementsCheck.criticalGaps) ∧
    (∃ g ∈ (crOfGaps ["A", "B"]).requirementsCheck.criticalGaps,
      g ∉ (crOfGaps ["A"]).requirementsCheck.criticalGaps) ∧
    ((computeDiff (crOfGaps ["A"]) (crOfGaps ["A", "B"]) "repo" "b0" "h0" none "now").newCriticalGaps
      ≠ [] ∧
     (computeDiff (crOfGaps ["A"]) (crOfGaps ["A", "B"]) "repo" "b0" "h0" none "now").resolvedGaps
      = []) :=
  ⟨by decide, by decide,
   C7_superset_gaps (crOfGaps ["A"]) (crOfGaps ["A", "B"]) "repo" "b0" "h0" none "now"
     (by decide) (by decide)⟩

/-- Invariant of the config-dependency fold: the produced component
names are pairwise distinct, none of them was in the incoming `seen`
set, and the outgoing `seen` set is the incoming one extended by exactly
the produced names. -/
theorem depsFromConfig_spec (cfg : List ConfigDep) (seen : List String) :
    ((depsFromConfig cfg seen).1.map (·.name)).Nodup ∧
    (∀ n ∈ (depsFromConfig cfg seen).1.map (·.name), n ∉ seen) ∧
    (∀ n, n ∈ (depsFromConfig cfg seen).2 ↔
      (n ∈ seen ∨ n ∈ (depsFromConfig cfg seen).1.map (·.name))) := by
  induction cfg generalizing seen with
  | nil => simp [depsFromConfig]
  | cons d rest ih =>
    by_cases hc : d.name ≠ "" ∧ d.name ∉ seen
    · obtain ⟨ih1, ih2, ih3⟩ := ih (d.name :: seen)
      simp only [depsFromConfig, if_pos hc, List.map_cons, List.nodup_cons,
        List.mem_cons]
      refine ⟨⟨?_, ih1⟩, ?_, ?_⟩
      · intro hmem
        exact (ih2 d.name hmem) (by simp)
      · intro n hn
        rcases hn with h1 | h2
        · rw [h1]; exact hc.2
        · intro hseen
          exact (ih2 n h2) (by simp [hseen])
      · intro n
        rw [ih3 n]
        simp only [List.mem_cons]
        tauto
    · simp only [depsFromConfig, if_neg hc]
      exact ih seen

/-- The same invariant for the ML-library-detection fold. -/
theorem depsFromMl_spec (ml : List MlLibDetection) (seen : List String) :
    ((depsFromMlLibraries ml seen).1.map (·.name)).Nodup ∧
    (∀ n ∈ (depsFromMlLibraries ml seen).1.map (·.name), n ∉ seen) ∧
    (∀ n, n ∈ (depsFromMlLibraries ml seen).2 ↔
      (n ∈ seen ∨ n ∈ (depsFromMlLibraries ml seen).1.map (·.name))) := by
  induction ml generalizing seen with
  | nil => simp [depsFromMlLibraries]
  | cons det rest ih =>
    rcases hcap : searchImport det.matchText.toList with _ | cap
    · simp only [depsFromMlLibraries, hcap]
      exact ih seen
    · by_cases hmem : pyLower cap ∉ seen
      · obtain ⟨ih1, ih2, ih3⟩ := ih (pyLower cap :: seen)
        simp only [depsFromMlLibraries, hcap, if_pos hmem, List.map_cons,
          List.nodup_cons, List.mem_cons]
        refine ⟨⟨?_, ih1⟩, ?_, ?_⟩
        · intro hmem2
          exact (ih2 (pyLower cap) hmem2) (by simp)
        · intro n hn
          rcases hn with h1 | h2
          · rw [h1]; exact hmem
          · intro hseen
            exact (ih2 n h2) (by simp [hseen])
        · intro n
          rw [ih3 n]
          simp only [List.mem_cons]
          tauto
      · simp only [depsFromMlLibraries, hcap, if_neg hmem]
        exact ih seen

/-- C6 counterexample: `sentence-transformers` and
`sentence_transformers` differ only in the separator; the AI-relatedness
flag agrees on both, but `_extract_dependencies` deduplicates by the
verbatim name string, so the second occurrence IS added as a separate
DependencyComponent (two components, not one). -/
theorem C6_counterexample :
    isAiRelated "sentence-transformers" = isAiRelated "sentence_transformers" ∧
    (extractDependencies [cfgDepHyphen, cfgDepUnderscore] []).length = 2 ∧
    ((extractDependencies [cfgDepHyphen, cfgDepUnderscore] []).map (·.name)) =
      ["sentence-transformers", "sentence_transformers"] := by
  refine ⟨by decide, by decide, by decide⟩

/-- C6 (amended): the AI-relatedness flag agrees on any two dependency
names that differ only in letter case or in the choice of hyphen, dot,
or underscore as the separator (equal normalized forms); the BOM
generator's deduplication, however, compares verbatim name strings only
— it never adds two components with the same exact name, but separator
variants are kept as distinct components. -/
theorem C6_flag_agreement_and_exact_dedup :
    (∀ n1 n2 : String, normalizeName n1 = normalizeName n2 →
      isAiRelated n1 = isAiRelated n2) ∧
    (∀ (cfg : List ConfigDep) (ml : List MlLibDetection),
      ((extractDependencies cfg ml).map (·.name)).Nodup) := by
  constructor
  · intro n1 n2 h
    unfold isAiRelated
    rw [h]
  · intro cfg ml
    unfold extractDependencies
    obtain ⟨h1nodup, _h1nin, h1iff⟩ := depsFromConfig_spec cfg []
    obtain ⟨h2nodup, h2nin, _h2iff⟩ := depsFromMl_spec ml (depsFromConfig cfg []).2
    rw [List.map_append, List.nodup_append]
    refine ⟨h1nodup, h2nodup, ?_⟩
    intro n hn1 hn2
    exact (h2nin n hn2) ((h1iff n).mpr (Or.inr hn1))

/-- C6 witness: the flag-agreement half applied to a case-and-separator
variant pair. -/
theorem C6_flag_agreement_witness :
    normalizeName "Sentence-Transformers" = normalizeName "sentence_transformers" ∧
    isAiRelated "Sentence-Transformers" = isAiRelated "sentence_transformers" :=
  ⟨by decide,
   C6_flag_agreement_and_exact_dedup.1 "Sentence-Transformers"
     "sentence_transformers" (by decide)⟩

/-- A BOM with no models, no datasets, and no AI-flagged dependency is
not classified as an AI system. -/
theorem isAiSystem_false_of (bom : AIBOM)
    (hm : bom.models = []) (hd : bom.datasets = [])
    (hdep : ∀ d ∈ bom.dependencies, d.isAiRelated = false) :
    isAiSystem bom = false := by
  unfold isAiSystem
  rw [hm, hd]
  have hfilter : bom.dependencies.filter (·.isAiRelated) = [] := by
    apply List.filter_eq_nil.mpr
    intro d hdmem
    simp [hdep d hdmem]
  simp [hfilter]

/-- C3: for every AIBOM with an empty models list, an empty datasets
list, and no AI-related dependency, `evaluate_compliance` short-circuits
to the non-AI result — compliant, score 1.0, MINIMAL risk, and exactly
one recommendation stating the Act does not apply — without running any
article validator. -/
theorem C3_non_ai_short_circuit (bom : AIBOM)
    (technicalDoc : Option TechnicalDocumentation) (systemId : Option String)
    (facts : CodebaseFacts)
    (hm : bom.models = []) (hd : bom.datasets = [])
    (hdep : ∀ d ∈ bom.dependencies, d.isAiRelated = false) :
    evaluateCompliance bom technicalDoc systemId facts =
      createNonAiComplianceResult bom (systemId.getD bom.spdxId) ∧
    (evaluateCompliance bom technicalDoc systemId facts).compliant = true ∧
    (evaluateCompliance bom technicalDoc systemId facts).requirementsCheck.complianceScore
      = 1 ∧
    (evaluateCompliance bom technicalDoc systemId facts).riskLevel = RiskLevel.minimal ∧
    (evaluateCompliance bom technicalDoc systemId facts).requirementsCheck.recommendations
      = ["No action required - this is not an AI system subject to EU AI Act"] := by
  have hfalse := isAiSystem_false_of bom hm hd hdep
  have heq : evaluateCompliance bom technicalDoc systemId facts =
      createNonAiComplianceResult bom (systemId.getD bom.spdxId) := by
    unfold evaluateCompliance
    simp [hfalse]
  refine ⟨heq, ?_, ?_, ?_, ?_⟩ <;> rw [heq] <;> rfl

/-- C3 witness: a BOM with one ordinary dependency. -/
theorem C3_non_ai_short_circuit_witness :
    (bomNonAi.models = [] ∧ bomNonAi.datasets = [] ∧
     (∀ d ∈ bomNonAi.dependencies, d.isAiRelated = false)) ∧
    ((evaluateCompliance bomNonAi none none noCodebase).compliant = true ∧
     (evaluateCompliance bomNonAi none none noCodebase).requirementsCheck.complianceScore
       = 1 ∧
     (evaluateCompliance bomNonAi none none noCodebase).riskLevel = RiskLevel.minimal) :=
  ⟨⟨rfl, rfl, by decide⟩,
   (C3_non_ai_short_circuit bomNonAi none none noCodebase rfl rfl (by decide)).2.1,
   (C3_non_ai_short_circuit bomNonAi none none noCodebase rfl rfl (by decide)).2.2.1,
   (C3_non_ai_short_circuit bomNonAi none none noCodebase rfl rfl (by decide)).2.2.2.1⟩

/-- On an AI system, `evaluate_compliance` runs the full evaluation. -/
theorem evaluateCompliance_ai (bom : AIBOM)
    (technicalDoc : Option TechnicalDocumentation) (systemId : Option String)
    (facts : CodebaseFacts) (hai : isAiSystem bom = true) :
    evaluateCompliance bom technicalDoc systemId facts =
      evaluateAi bom (technicalDoc.getD (extractDocumentationFromBom bom))
        (systemId.getD bom.spdxId) facts := by
  unfold evaluateCompliance
  simp [hai]

/-- The overall verdict of the full evaluation is the step-7 formula
applied to the stored score, gaps, risk level, and the five
high-priority article flags. -/
theorem evaluateAi_compliant_eq (bom : AIBOM) (td : TechnicalDocumentation)
    (systemId : String) (facts : CodebaseFacts) :
    (evaluateAi bom td systemId facts).compliant =
      overallCompliant
        (evaluateAi bom td systemId facts).requirementsCheck.complianceScore
        (evaluateAi bom td systemId facts).requirementsCheck.criticalGaps
        (evaluateAi bom td systemId facts).riskLevel
        (evaluateAi bom td systemId facts).requirementsCheck.article9Compliant
        (evaluateAi bom td systemId facts).requirementsCheck.article10Compliant
        (evaluateAi bom td systemId facts).requirementsCheck.article12Compliant
        (evaluateAi bom td systemId facts).requirementsCheck.article11Compliant
        (evaluateAi bom td systemId facts).requirementsCheck.article14Compliant := by
  simp only [evaluateAi, evalRc, evalRc1, evalRc0, evalCompliant]

/-- Unfolding of the step-7 formula into propositional form. -/
theorem overallCompliant_iff (score : ℚ) (gaps : List String)
    (riskLevel : RiskLevel) (a9c a10c a12c a11c a14c : Bool) :
    overallCompliant score gaps riskLevel a9c a10c a12c a11c a14c = true ↔
      ((85 : ℚ)/100 ≤ score ∧ gaps = [] ∧
       (riskLevel = .high →
         a9c = true ∧ a10c = true ∧ a12c = true ∧ a11c = true ∧ a14c = true)) := by
  unfold overallCompliant
  by_cases hrl : riskLevel = .high <;>
    simp [hrl, Bool.and_eq_true, decide_eq_true_eq, List.length_eq_zero,
      and_assoc]

/-- C1: for every AI-classified BOM, the result is compliant exactly
when the computed compliance score is at least 0.85, the critical-gap
list is empty, and — when the risk level is HIGH — Articles 9, 10, 12,
11 and 14 are each individually compliant. -/
theorem C1_compliant_iff (bom : AIBOM)
    (technicalDoc : Option TechnicalDocumentation) (systemId : Option String)
    (facts : CodebaseFacts) (hai : isAiSystem bom = true) :
    (evaluateCompliance bom technicalDoc systemId facts).compliant = true ↔
      ((85 : ℚ)/100 ≤
         (evaluateCompliance bom technicalDoc systemId facts).requirementsCheck.complianceScore ∧
       (evaluateCompliance bom technicalDoc systemId facts).requirementsCheck.criticalGaps
         = [] ∧
       ((evaluateCompliance bom technicalDoc systemId facts).riskLevel = RiskLevel.high →
         (evaluateCompliance bom technicalDoc systemId facts).requirementsCheck.article9Compliant
           = true ∧
         (evaluateCompliance bom technicalDoc systemId facts).requirementsCheck.article10Compliant
           = true ∧
         (evaluateCompliance bom technicalDoc systemId facts).requirementsCheck.article12Compliant
           = true ∧
         (evaluateCompliance bom technicalDoc systemId facts).requirementsCheck.article11Compliant
           = true ∧
         (evaluateCompliance bom technicalDoc systemId facts).requirementsCheck.article14Compliant
           = true)) := by
  rw [evaluateCompliance_ai bom technicalDoc systemId facts hai,
    evaluateAi_compliant_eq]
  exact overallCompliant_iff _ _ _ _ _ _ _ _

/-- C1 witness: a BOM with one custom model is an AI system; the
equivalence holds there. -/
theorem C1_compliant_iff_witness :
    isAiSystem bomOneModel = true ∧
    ((evaluateCompliance bomOneModel none none noCodebase).compliant = true ↔
      ((85 : ℚ)/100 ≤
         (evaluateCompliance bomOneModel none none noCodebase).requirementsCheck.complianceScore ∧
       (evaluateCompliance bomOneModel none none noCodebase).requirementsCheck.criticalGaps
         = [] ∧
       ((evaluateCompliance bomOneModel none none noCodebase).riskLevel = RiskLevel.high →
         (evaluateCompliance bomOneModel none none noCodebase).requirementsCheck.article9Compliant
           = true ∧
         (evaluateCompliance bomOneModel none none noCodebase).requirementsCheck.article10Compliant
           = true ∧
         (evaluateCompliance bomOneModel none none noCodebase).requirementsCheck.article12Compliant
           = true ∧
         (evaluateCompliance bomOneModel none none noCodebase).requirementsCheck.article11Compliant
           = true ∧
         (evaluateCompliance bomOneModel none none noCodebase).requirementsCheck.article14Compliant
           = true))) :=
  ⟨by decide, C1_compliant_iff bomOneModel none none noCodebase (by decide)⟩

/-- The Article 16 gap string is always collected when the Article 16
flag is false. -/
theorem mem_gap16 (a10c a9c a12c a11c a14c : Bool) (riskLevel : RiskLevel)
    (a15acc a15rob a15cyb a17c a61c a72c gpaiCompliant : Bool)
    (gpaiDetected : Nat) :
    "Provider Obligations not satisfied (Article 16)" ∈
      criticalGapsList a10c a9c a12c a11c a14c riskLevel a15acc a15rob a15cyb
        false a17c a61c a72c gpaiCompliant gpaiDetected := by
  simp [criticalGapsList]

/-- A non-empty critical-gap list forces the step-7 verdict to false. -/
theorem overallCompliant_false_of_gap (score : ℚ) (gaps : List String)
    (riskLevel : RiskLevel) (a9c a10c a12c a11c a14c : Bool)
    (hg : gaps ≠ []) :
    overallCompliant score gaps riskLevel a9c a10c a12c a11c a14c = false := by
  unfold overallCompliant
  simp [hg]

/-- The full evaluation stores `article_16_compliant = false`: the
provider-obligations validator hard-codes
`conformity_assessment_completed` to false. -/
theorem evaluateAi_art16_false (bom : AIBOM) (td : TechnicalDocumentation)
    (systemId : String) (facts : CodebaseFacts) :
    (evaluateAi bom td systemId facts).requirementsCheck.article16Compliant
      = false := by
  simp only [evaluateAi, evalRc, evalRc1, evalRc0, evalArticle16_17,
    providerObligationsValidate]

/-- The fixed-text Article 16 critical gap is collected by every full
evaluation. -/
theorem evaluateAi_gap16_mem (bom : AIBOM) (td : TechnicalDocumentation)
    (systemId : String) (facts : CodebaseFacts) :
    "Provider Obligations not satisfied (Article 16)" ∈
      (evaluateAi bom td systemId facts).requirementsCheck.criticalGaps := by
  simp only [evaluateAi, evalRc, evalRc1, evalGaps, evalArticle16_17,
    providerObligationsValidate]
  exact mem_gap16 _ _ _ _ _ _ _ _ _ _ _ _ _ _

/-- C10: every AIBOM classified as an AI system evaluates to a
non-compliant result: the provider-obligations validator hard-codes
`conformity_assessment_completed` to false, so `article_16_compliant` is
always false, the fixed-text Article 16 critical gap is always present,
and the zero-critical-gaps condition for overall compliance can never
hold. -/
theorem C10_always_noncompliant (bom : AIBOM)
    (technicalDoc : Option TechnicalDocumentation) (systemId : Option String)
    (facts : CodebaseFacts) (hai : isAiSystem bom = true) :
    (evaluateCompliance bom technicalDoc systemId facts).requirementsCheck.article16Compliant
      = false ∧
    "Provider Obligations not satisfied (Article 16)" ∈
      (evaluateCompliance bom technicalDoc systemId facts).requirementsCheck.criticalGaps ∧
    (evaluateCompliance bom technicalDoc systemId facts).compliant = false := by
  rw [evaluateCompliance_ai bom technicalDoc systemId facts hai]
  refine ⟨evaluateAi_art16_false bom _ _ facts, evaluateAi_gap16_mem bom _ _ facts, ?_⟩
  rw [evaluateAi_compliant_eq]
  exact overallCompliant_false_of_gap _ _ _ _ _ _ _ _
    (List.ne_nil_of_mem (evaluateAi_gap16_mem bom _ _ facts))

/-- C10 witness: the one-model BOM is an AI system and its evaluation is
non-compliant with the Article 16 gap present. -/
theorem C10_always_noncompliant_witness :
    isAiSystem bomOneModel = true ∧
    ((evaluateCompliance bomOneModel none none noCodebase).requirementsCheck.article16Compliant
       = false ∧
     "Provider Obligations not satisfied (Article 16)" ∈
       (evaluateCompliance bomOneModel none none noCodebase).requirementsCheck.criticalGaps ∧
     (evaluateCompliance bomOneModel none none noCodebase).compliant = false) :=
  ⟨by decide, C10_always_noncompliant bomOneModel none none noCodebase (by decide)⟩

/-- C2: for every AI-classified BOM, the stored compliance score equals
the number of compliant articles divided by the number checked — a fixed
13 unless GPAI models are detected, in which case the total becomes 14
and GPAI counts toward the numerator only when the deployer obligations
are compliant. -/
theorem C2_score_invariant (bom : AIBOM)
    (technicalDoc : Option TechnicalDocumentation) (systemId : Option String)
    (facts : CodebaseFacts) (hai : isAiSystem bom = true) :
    (evaluateCompliance bom technicalDoc systemId facts).requirementsCheck.complianceScore =
      (((evaluateCompliance bom technicalDoc systemId facts).requirementsCheck.articlesCompliantCount : ℚ) +
        (if 0 < (gpaiValidate bom).gpaiModelsDetected.length ∧
            (gpaiValidate bom).compliantAsDeployer = true then 1 else 0)) /
      (if 0 < (gpaiValidate bom).gpaiModelsDetected.length then 14 else 13) := by
  rw [evaluateCompliance_ai bom technicalDoc systemId facts hai]
  simp only [evaluateAi, evalRc, evalRc1, evalScore, evalTotalArticles,
    evalCompliantArticles, evalGpaiCompliant,
    AnnexIVRequirements.totalArticlesChecked,
    AnnexIVRequirements.articlesCompliantCount]
  by_cases hdet : 0 < (gpaiValidate bom).gpaiModelsDetected.length
  · by_cases hdep : (gpaiValidate bom).compliantAsDeployer = true
    · simp only [hdet, hdep, if_true, and_self, if_pos]
      push_cast
      norm_num
    · simp [hdet, hdep]
  · simp [hdet]

/-- C2 witness: the equivalence instantiated at the one-model BOM. -/
theorem C2_score_invariant_witness :
    isAiSystem bomOneModel = true ∧
    (evaluateCompliance bomOneModel none none noCodebase).requirementsCheck.complianceScore =
      (((evaluateCompliance bomOneModel none none noCodebase).requirementsCheck.articlesCompliantCount : ℚ) +
        (if 0 < (gpaiValidate bomOneModel).gpaiModelsDetected.length ∧
            (gpaiValidate bomOneModel).compliantAsDeployer = true then 1 else 0)) /
      (if 0 < (gpaiValidate bomOneModel).gpaiModelsDetected.length then 14 else 13) :=
  ⟨by decide, C2_score_invariant bomOneModel none none noCodebase (by decide)⟩

end ActProof
